import Mathlib

/-!
# CRD reconciliation of the helm-project-operator (`pkg/helm-project-operator/crd/crds.go`)

A shallow embedding of `filterMissingCRDs`, `shouldManageHelmControllerCRDs`, `Create`
and `writeFiles`.  Everything the Go code obtains from outside the file (the cluster
client, the process environment, the runtime classifier, the wrangler helpers, the file
system) is a field of a world record; every call to one of them is recorded, in order,
in a trace of events, so that "is never queried" and "nothing is submitted" are
statements about the trace.
-/

namespace Crd

/-! ## Data model -/

/-- The `schema.GroupVersionKind` of a definition. -/
structure GroupVersionKind where
  Group : String
  Version : String
  Kind : String
deriving DecidableEq

/-- The wrangler `crd.CRD` value: the fields the code under study reads (`GVK`) and the
ones set by `newCRD` and its customisation (status sub-resource, printer columns). -/
structure CRD where
  GVK : GroupVersionKind
  PluralName : String
  NonNamespace : Bool
  Status : Bool
  Columns : List (String × String)
deriving DecidableEq

/-- Answer of `CustomResourceDefinitions().Get`: a record (of which the code reads
`Status.StoredVersions`), an error for which `apimachineerrors.IsNotFound` holds, or any
other error.  The string of an error is its `Error()` text. -/
inductive GetResult where
  | found (StoredVersions : List String)
  | notFound (msg : String)
  | failed (msg : String)
deriving DecidableEq

/-- The three groups returned by `List()`. -/
structure Catalog where
  crds : List CRD
  helmLockerCrdDefs : List CRD
  helmControllerCrdDefs : List CRD

/-- Everything `Create` reads from outside `crds.go`.  The cluster is not changed by
anyone else during a call: a query is a function of the name asked for. -/
structure World where
  /-- The function `name.GuessPluralName` of wrangler. -/
  GuessPluralName : String → String
  /-- The function `strings.ToLower`. -/
  ToLower : String → String
  /-- The call `CustomResourceDefinitions().Get(ctx, name, opts)` of the cluster client. -/
  Get : String → GetResult
  /-- The function `os.Getenv`. -/
  Getenv : String → String
  /-- The call `experimental.IdentifyKubernetesRuntimeType(cfg)`: the runtime string and
  the error (`none` for nil). -/
  IdentifyKubernetesRuntimeType : String × Option String
  /-- The error of `crd.NewFactoryFromClient(cfg)`, `none` when the factory is built. -/
  NewFactoryFromClient : Option String
  /-- The error of `factory.BatchCreateCRDs(ctx, defs...).BatchWait()`. -/
  BatchCreateCRDs : List CRD → Option String
  /-- The result of `List()`: its entries are built by wrangler and by the `List()` of two
  other packages. -/
  catalog : Catalog

inductive Level where
  | debug
  | error
deriving DecidableEq

/-- One observable step of the code, in the order of execution. -/
inductive Event where
  | newFactory
  | get (name : String)
  | getenv (key : String)
  | identify
  | batchCreate (plan : List CRD)
  | log (level : Level) (msg : String)
deriving DecidableEq

/-- How a Go function of type `... error` ends: `nil`, a non-nil error, or a run-time panic. -/
inductive Result where
  | nil
  | error (msg : String)
  | panic (msg : String)
deriving DecidableEq

/-- The existence queries of a trace, in order. -/
def queries : List Event → List String
  | [] => []
  | Event.get n :: es => n :: queries es
  | _ :: es => queries es

/-- The plans handed to `BatchCreateCRDs` in a trace, in order. -/
def submitted : List Event → List (List CRD)
  | [] => []
  | Event.batchCreate p :: es => p :: submitted es
  | _ :: es => submitted es

/-- Number of calls of the runtime classifier in a trace. -/
def consulted : List Event → Nat
  | [] => 0
  | Event.identify :: es => consulted es + 1
  | _ :: es => consulted es

/-! ## `filterMissingCRDs` -/

/-- The method `schema.GroupKind.String()`: the kind alone for the empty group, else `kind.group`. -/
def GroupKind_String (group kind : String) : String :=
  if group.length = 0 then kind else kind ++ "." ++ group

/-- The `crdName` of line 226: the lower-cased guessed plural of the kind, with the group. -/
def crdName (w : World) (currentCRD : CRD) : String :=
  GroupKind_String currentCRD.GVK.Group
    (w.ToLower (w.GuessPluralName currentCRD.GVK.Kind))

/-- The state after `filterMissingCRDs`: the list behind the pointer, how the call ended,
and what it did. -/
structure FilterOut where
  expectedCRDs : List CRD
  result : Result
  trace : List Event

/-- The loop of lines 224-247.  The first argument is `i + 1` for the index `i` about to be
visited, `0` once `i >= 0` fails. -/
def filterLoop (w : World) : Nat → List CRD → FilterOut
  | 0, expectedCRDs => ⟨expectedCRDs, Result.nil, []⟩
  | i + 1, expectedCRDs =>
    match expectedCRDs[i]? with
    | none => ⟨expectedCRDs, Result.panic "index out of range", []⟩
    | some currentCRD =>
      let name := crdName w currentCRD
      match w.Get name with
      | GetResult.found StoredVersions =>
        match StoredVersions with
        | [] => ⟨expectedCRDs, Result.panic "index out of range [0] with length 0",
                  [Event.get name]⟩
        | v :: _ =>
          let r := filterLoop w i (expectedCRDs.take i ++ expectedCRDs.drop (i + 1))
          ⟨r.expectedCRDs, r.result,
            [Event.get name,
             Event.log Level.debug
               ("Found `" ++ name ++ "` at version `" ++ v ++ "`, expecting version `"
                 ++ currentCRD.GVK.Version ++ "`"),
             Event.log Level.debug
               ("Installing `" ++ name
                 ++ "` will be skipped; a suitible version exists on the cluster")]
            ++ r.trace⟩
      | GetResult.failed msg =>
        ⟨[], Result.error ("failed to check CRD " ++ name ++ ": " ++ msg), [Event.get name]⟩
      | GetResult.notFound _ =>
        let r := filterLoop w i expectedCRDs
        ⟨r.expectedCRDs, r.result,
          [Event.get name,
           Event.log Level.debug
             ("Did not find `" ++ name ++ "` on the cluster, it will be installed")]
          ++ r.trace⟩

/-- The function `filterMissingCRDs(apiExtClient, &expectedCRDs)`: the loop started at `len - 1`. -/
def filterMissingCRDs (w : World) (expectedCRDs : List CRD) : FilterOut :=
  filterLoop w expectedCRDs.length expectedCRDs

/-! ## `shouldManageHelmControllerCRDs` -/

structure ManageOut where
  value : Bool
  trace : List Event

/-- The function `shouldManageHelmControllerCRDs(cfg)`, lines 253-273. -/
def shouldManageHelmControllerCRDs (w : World) : ManageOut :=
  if w.Getenv "DETECT_K3S_RKE2" != "true" then
    ⟨true, [Event.getenv "DETECT_K3S_RKE2",
            Event.log Level.debug
              "k3s/rke2 detection feature is disabled; `helm-controller` CRDs will be managed"]⟩
  else
    let k8sRuntimeType := w.IdentifyKubernetesRuntimeType.1
    let err := w.IdentifyKubernetesRuntimeType.2
    let logErr := match err with
      | some e => [Event.log Level.error e]
      | none => []
    let onK3sRke2 := k8sRuntimeType == "k3s" || k8sRuntimeType == "rke2"
    let logK3s :=
      if onK3sRke2 then
        [Event.log Level.debug
          ("the cluster is running on k3s (or rke2), `helm-controller` CRDs will not be "
            ++ "managed by `prometheus-federator`")]
      else []
    ⟨!onK3sRke2, [Event.getenv "DETECT_K3S_RKE2", Event.identify] ++ logErr ++ logK3s⟩

/-! ## `Create` -/

structure CreateOut where
  result : Result
  trace : List Event

/-- Lines 203-208: the merge of the groups and the batch creation. -/
def createPlan (w : World) (crdDefs helmLockerCrdDefs helmControllerCrdDefs : List CRD) :
    CreateOut :=
  let crdDefs := crdDefs ++ helmLockerCrdDefs
  let m := shouldManageHelmControllerCRDs w
  let crdDefs := if m.value then crdDefs ++ helmControllerCrdDefs else crdDefs
  ⟨match w.BatchCreateCRDs crdDefs with
    | none => Result.nil
    | some e => Result.error e,
   m.trace ++ [Event.batchCreate crdDefs]⟩

/-- Lines 184-201: the three filters, each one run only when the one before returned nil. -/
def createFiltered (w : World) : CreateOut :=
  let f1 := filterMissingCRDs w w.catalog.crds
  match f1.result with
  | Result.nil =>
    let f2 := filterMissingCRDs w w.catalog.helmLockerCrdDefs
    match f2.result with
    | Result.nil =>
      let f3 := filterMissingCRDs w w.catalog.helmControllerCrdDefs
      match f3.result with
      | Result.nil =>
        let p := createPlan w f1.expectedCRDs f2.expectedCRDs f3.expectedCRDs
        ⟨p.result, f1.trace ++ f2.trace ++ f3.trace ++ p.trace⟩
      | r => ⟨r, f1.trace ++ f2.trace ++ f3.trace⟩
    | r => ⟨r, f1.trace ++ f2.trace⟩
  | r => ⟨r, f1.trace⟩

/-- The function `Create(ctx, cfg, shouldUpdateCRDs)`, lines 175-209.  The type assertion
of line 181 holds for every factory `NewFactoryFromClient` builds. -/
def Create (w : World) (shouldUpdateCRDs : Bool) : CreateOut :=
  match w.NewFactoryFromClient with
  | some err => ⟨Result.error err, [Event.newFactory]⟩
  | none =>
    let r :=
      if !shouldUpdateCRDs then createFiltered w
      else
        let p := createPlan w w.catalog.crds w.catalog.helmLockerCrdDefs
          w.catalog.helmControllerCrdDefs
        ⟨p.result,
          Event.log Level.debug "UpdateCRDs is Enabled; all CRDs will be installed." :: p.trace⟩
    ⟨r.result, Event.newFactory :: r.trace⟩

/-! ## `writeFiles` -/

/-- A `runtime.Object` handed to `writeFiles`: its metadata name and the rest of it. -/
structure Object where
  Name : String
  Spec : String
deriving DecidableEq

/-- Everything `writeFiles` reads from outside `crds.go`. -/
structure FileWorld where
  /-- The error of `os.MkdirAll(dirpath, 0755)`, `none` for nil. -/
  MkdirAll : String → Option String
  /-- The call `yaml.Export(o)` of wrangler: the bytes, or the error. -/
  Export : Object → Except String String
  /-- The error of `meta.Accessor(o)`, `none` for nil. -/
  Accessor : Object → Option String
  /-- The function `filepath.Join`. -/
  Join : String → String → String
  /-- The error of `os.Create(path)`, `none` when the file is opened (and truncated). -/
  OsCreate : String → Option String
  /-- The call `f.Write(data)` on the file of a path: `none` when all of `data` is written,
  else the error and the bytes that did reach the file. -/
  Write : String → String → Option (String × String)
  /-- The order in which the buckets of the map are ranged over and their tasks run. -/
  rangeOrder : List (String × String) → List (String × String)

deriving instance DecidableEq for Except

/-- The regular files below the target directory: the content at each path. -/
abbrev Files := String → Option String

/-- The files after the file at `path` holds `content`. -/
def Files.set (fs : Files) (path content : String) : Files :=
  fun p => if p = path then some content else fs p

inductive FileEvent where
  | mkdirAll (path : String)
  | create (path : String)
  | write (path : String) (data : String)
  | logError (msg : String)
deriving DecidableEq

/-- The key of line 64, `strings.SplitN(name, ".", 2)[0]`: the name up to its first dot. -/
def splitKey (name : String) : String :=
  String.mk (name.data.takeWhile (fun c => c != '.'))

/-- The assignment `objMap[key] = data` on a map held as a list of distinct keys. -/
def mapSet (objMap : List (String × String)) (key data : String) : List (String × String) :=
  match objMap with
  | [] => [(key, data)]
  | (k, d) :: rest =>
    if k = key then (key, data) :: rest else (k, d) :: mapSet rest key data

/-- The loop of lines 55-66 from a given `objMap`: the map, or the error returned. -/
def buildObjMap (fw : FileWorld) :
    List Object → List (String × String) → Except String (List (String × String))
  | [], objMap => Except.ok objMap
  | o :: objs, objMap =>
    match fw.Export o with
    | Except.error err => Except.error err
    | Except.ok data =>
      match fw.Accessor o with
      | some err => Except.error err
      | none => buildObjMap fw objs (mapSet objMap (splitKey o.Name) data)

/-- The task of lines 71-82 for one bucket.  After a failed `os.Create` the file is nil and
`Write` on it returns `os.ErrInvalid` without touching anything. -/
def writeBucket (fw : FileWorld) (dirpath key data : String) (fs : Files) :
    Files × List FileEvent :=
  let path := fw.Join dirpath (key ++ ".yaml")
  match fw.OsCreate path with
  | some err =>
    (fs, [FileEvent.create path, FileEvent.logError err, FileEvent.logError "invalid argument"])
  | none =>
    match fw.Write path data with
    | none => (fs.set path data, [FileEvent.create path, FileEvent.write path data])
    | some (err, written) =>
      (fs.set path written,
        [FileEvent.create path, FileEvent.write path data, FileEvent.logError err])

/-- The tasks of lines 70-84, run one after the other in the given order. -/
def runBuckets (fw : FileWorld) (dirpath : String) :
    List (String × String) → Files → Files × List FileEvent
  | [], fs => (fs, [])
  | (key, data) :: rest, fs =>
    let r1 := writeBucket fw dirpath key data fs
    let r2 := runBuckets fw dirpath rest r1.1
    (r2.1, r1.2 ++ r2.2)

structure WriteOut where
  result : Result
  files : Files
  trace : List FileEvent

/-- The function `writeFiles(dirpath, objs)`, lines 48-87, started on the files `fs`. -/
def writeFiles (fw : FileWorld) (dirpath : String) (objs : List Object) (fs : Files) :
    WriteOut :=
  match fw.MkdirAll dirpath with
  | some err => ⟨Result.error err, fs, [FileEvent.mkdirAll dirpath]⟩
  | none =>
    match buildObjMap fw objs [] with
    | Except.error err => ⟨Result.error err, fs, [FileEvent.mkdirAll dirpath]⟩
    | Except.ok objMap =>
      let r := runBuckets fw dirpath (fw.rangeOrder objMap) fs
      ⟨Result.nil, r.1, FileEvent.mkdirAll dirpath :: r.2⟩

/-- The path of the file of a bucket. -/
def bucketPath (fw : FileWorld) (dirpath key : String) : String :=
  fw.Join dirpath (key ++ ".yaml")

/-- The last object of a list whose name has the given key. -/
def lastWithKey (key : String) : List Object → Option Object
  | [] => none
  | o :: objs =>
    match lastWithKey key objs with
    | some x => some x
    | none => if splitKey o.Name = key then some o else none

/-- The object passes lines 56-63: it is exported and its metadata is accessible. -/
def serialises (fw : FileWorld) (o : Object) : Bool :=
  match fw.Export o, fw.Accessor o with
  | Except.ok _, none => true
  | _, _ => false

/-! ## Specification-side vocabulary -/

/-- The answer is "not found". -/
def GetResult.isNotFound : GetResult → Bool
  | GetResult.notFound _ => true
  | _ => false

/-- The answer is an error other than "not found". -/
def GetResult.isFailed : GetResult → Bool
  | GetResult.failed _ => true
  | _ => false

/-- The answer is a record whose stored-version list is empty. -/
def GetResult.faults : GetResult → Bool
  | GetResult.found [] => true
  | _ => false

/-- The answer is "not found", or a record with at least one stored version. -/
def GetResult.resolvable : GetResult → Bool
  | GetResult.notFound _ => true
  | GetResult.found (_ :: _) => true
  | _ => false

/-- The entries of a list whose existence query answers "not found", in their order. -/
def missing (w : World) (xs : List CRD) : List CRD :=
  xs.filter (fun x => (w.Get (crdName w x)).isNotFound)

/-- The merged list of lines 203-206. -/
def mergedPlan (w : World) (g1 g2 g3 : List CRD) : List CRD :=
  if (shouldManageHelmControllerCRDs w).value then g1 ++ g2 ++ g3 else g1 ++ g2

/-- The identity of a definition: its group and kind. -/
def identity (x : CRD) : String × String := (x.GVK.Group, x.GVK.Kind)

/-! ## Sample clusters -/

/-- A definition of group `helm.cattle.io`, version `v1`, with the given kind. -/
def sampleCRD (kind : String) : CRD :=
  { GVK := { Group := "helm.cattle.io", Version := "v1", Kind := kind },
    PluralName := "", NonNamespace := false, Status := true, Columns := [] }

/-- The catalog of the scenario: one primary definition, two locker dependencies, one
controller dependency. -/
def sampleCatalog : Catalog :=
  { crds := [sampleCRD "ProjectHelmChart"],
    helmLockerCrdDefs := [sampleCRD "HelmChart", sampleCRD "HelmChartConfig"],
    helmControllerCrdDefs := [sampleCRD "HelmRelease"] }

/-- A world over the sample catalog with the given cluster answers, value of
`DETECT_K3S_RKE2` and classifier result; the factory is built and the creation succeeds. -/
def sampleWorld (get : String → GetResult) (detect : String)
    (runtime : String × Option String) : World :=
  { GuessPluralName := fun k => k ++ "s",
    ToLower := fun s => String.mk (s.data.map Char.toLower),
    Get := get,
    Getenv := fun k => if k = "DETECT_K3S_RKE2" then detect else "",
    IdentifyKubernetesRuntimeType := runtime,
    NewFactoryFromClient := none,
    BatchCreateCRDs := fun _ => none,
    catalog := sampleCatalog }

/-- The world of an empty cluster reached through a configuration from which no client
factory can be built. -/
def noFactoryWorld : World :=
  { sampleWorld (fun _ => GetResult.notFound "not found") "" ("", none) with
    NewFactoryFromClient := some "invalid configuration" }

/-- A cluster that holds the two locker dependencies and nothing else. -/
def lockerPresent (n : String) : GetResult :=
  if n = "helmcharts.helm.cattle.io" then GetResult.found ["v1"]
  else if n = "helmchartconfigs.helm.cattle.io" then GetResult.found ["v1"]
  else GetResult.notFound "not found"

/-- A cluster that holds `helmcharts`, and whose query for `helmchartconfigs` times out. -/
def configsUnreachable (n : String) : GetResult :=
  if n = "helmcharts.helm.cattle.io" then GetResult.found ["v1"]
  else if n = "helmchartconfigs.helm.cattle.io" then GetResult.failed "timeout"
  else GetResult.notFound "not found"

/-- A cluster whose record of `helmcharts` has no stored version. -/
def chartsUnversioned (n : String) : GetResult :=
  if n = "helmcharts.helm.cattle.io" then GetResult.found []
  else GetResult.notFound "not found"

/-- A file world in which every object is exported as its `Spec`, paths are joined with a
slash, buckets run in map order, writes succeed and `os.Create` answers as given. -/
def sampleFileWorld (create : String → Option String) : FileWorld :=
  { MkdirAll := fun _ => none,
    Export := fun o => Except.ok o.Spec,
    Accessor := fun _ => none,
    Join := fun d e => d ++ "/" ++ e,
    OsCreate := create,
    Write := fun _ _ => none,
    rangeOrder := fun m => m }

/-- An `os.Create` that is refused for `crds/helmcharts.yaml` only. -/
def chartsFileDenied (path : String) : Option String :=
  if path = "crds/helmcharts.yaml" then some "permission denied" else none

/-- The empty directory. -/
def noFiles : Files := fun _ => none

/-! ## The reverse pass -/

theorem getElem?_mid (pre : List CRD) (x : CRD) (rest : List CRD) :
    (pre ++ x :: rest)[pre.length]? = some x := by
  rw [List.getElem?_append_right (Nat.le_refl _)]
  simp

theorem remove_mid (pre : List CRD) (x : CRD) (rest : List CRD) :
    (pre ++ x :: rest).take pre.length ++ (pre ++ x :: rest).drop (pre.length + 1)
      = pre ++ rest := by
  simp

/-- One iteration on a "not found" entry keeps the list. -/
theorem filterLoop_notFound (w : World) (pre : List CRD) (x : CRD) (rest : List CRD)
    (m : String) (h : w.Get (crdName w x) = GetResult.notFound m) :
    (filterLoop w (pre.length + 1) (pre ++ x :: rest)).expectedCRDs
        = (filterLoop w pre.length (pre ++ x :: rest)).expectedCRDs ∧
    (filterLoop w (pre.length + 1) (pre ++ x :: rest)).result
        = (filterLoop w pre.length (pre ++ x :: rest)).result := by
  simp only [filterLoop, getElem?_mid, h, and_self]

/-- One iteration on a found entry with a stored version removes it. -/
theorem filterLoop_found (w : World) (pre : List CRD) (x : CRD) (rest : List CRD)
    (v : String) (vs : List String) (h : w.Get (crdName w x) = GetResult.found (v :: vs)) :
    (filterLoop w (pre.length + 1) (pre ++ x :: rest)).expectedCRDs
        = (filterLoop w pre.length (pre ++ rest)).expectedCRDs ∧
    (filterLoop w (pre.length + 1) (pre ++ x :: rest)).result
        = (filterLoop w pre.length (pre ++ rest)).result := by
  simp only [filterLoop, getElem?_mid, h, remove_mid, and_self]

/-- One iteration on a failing entry clears the list and returns the wrapped error. -/
theorem filterLoop_failed (w : World) (pre : List CRD) (x : CRD) (rest : List CRD)
    (m : String) (h : w.Get (crdName w x) = GetResult.failed m) :
    (filterLoop w (pre.length + 1) (pre ++ x :: rest)).expectedCRDs = [] ∧
    (filterLoop w (pre.length + 1) (pre ++ x :: rest)).result
        = Result.error ("failed to check CRD " ++ crdName w x ++ ": " ++ m) := by
  simp only [filterLoop, getElem?_mid, h, and_self]

/-- One iteration on a found entry without stored version panics, the list untouched. -/
theorem filterLoop_empty (w : World) (pre : List CRD) (x : CRD) (rest : List CRD)
    (h : w.Get (crdName w x) = GetResult.found []) :
    (filterLoop w (pre.length + 1) (pre ++ x :: rest)).expectedCRDs = pre ++ x :: rest ∧
    (filterLoop w (pre.length + 1) (pre ++ x :: rest)).result
        = Result.panic "index out of range [0] with length 0" := by
  simp only [filterLoop, getElem?_mid, h, and_self]

theorem missing_append (w : World) (xs ys : List CRD) :
    missing w (xs ++ ys) = missing w xs ++ missing w ys := by
  simp [missing]

theorem missing_sublist (w : World) (xs : List CRD) : (missing w xs).Sublist xs := by
  simp [missing]

/-- The pass over a block of resolvable entries: the block is replaced by its "not found"
entries and the pass goes on below it. -/
theorem filterLoop_resolvable (w : World) (post : List CRD) :
    (∀ y ∈ post, (w.Get (crdName w y)).resolvable = true) →
    ∀ pre suf : List CRD,
      (filterLoop w (pre.length + post.length) (pre ++ post ++ suf)).expectedCRDs
          = (filterLoop w pre.length (pre ++ (missing w post ++ suf))).expectedCRDs ∧
      (filterLoop w (pre.length + post.length) (pre ++ post ++ suf)).result
          = (filterLoop w pre.length (pre ++ (missing w post ++ suf))).result := by
  induction post using List.reverseRecOn with
  | nil => intro _ pre suf; simp [missing]
  | append_singleton init y ih =>
    intro hpost pre suf
    have hinit : ∀ z ∈ init, (w.Get (crdName w z)).resolvable = true :=
      fun z hz => hpost z (List.mem_append_left _ hz)
    have hy : (w.Get (crdName w y)).resolvable = true :=
      hpost y (List.mem_append_right _ (List.mem_singleton_self y))
    have hlen : pre.length + (init ++ [y]).length = (pre ++ init).length + 1 := by
      simp [Nat.add_assoc]
    have hlist : pre ++ (init ++ [y]) ++ suf = (pre ++ init) ++ y :: suf := by simp
    have hlen2 : (pre ++ init).length = pre.length + init.length := by simp
    rw [hlen, hlist]
    cases hg : w.Get (crdName w y) with
    | found sv =>
      cases sv with
      | nil => rw [hg] at hy; simp [GetResult.resolvable] at hy
      | cons v vs =>
        have hstep := filterLoop_found w (pre ++ init) y suf v vs hg
        have hrec := ih hinit pre suf
        have hm : missing w (init ++ [y]) = missing w init := by
          simp [missing, hg, GetResult.isNotFound]
        rw [hstep.1, hstep.2, hlen2, hm]
        exact hrec
    | notFound m =>
      have hstep := filterLoop_notFound w (pre ++ init) y suf m hg
      have hrec := ih hinit pre (y :: suf)
      have hm : missing w (init ++ [y]) ++ suf = missing w init ++ y :: suf := by
        simp [missing, hg, GetResult.isNotFound]
      have hl : pre ++ init ++ y :: suf = pre ++ init ++ (y :: suf) := rfl
      rw [hstep.1, hstep.2, hlen2, hm]
      exact hrec
    | failed m => rw [hg] at hy; simp [GetResult.resolvable] at hy

/-- The whole call on a list of resolvable entries. -/
theorem filterMissingCRDs_resolvable (w : World) (xs : List CRD)
    (h : ∀ x ∈ xs, (w.Get (crdName w x)).resolvable = true) :
    (filterMissingCRDs w xs).expectedCRDs = missing w xs ∧
    (filterMissingCRDs w xs).result = Result.nil := by
  have h0 := filterLoop_resolvable w xs h [] []
  simp only [List.length_nil, Nat.zero_add, List.nil_append, List.append_nil] at h0
  unfold filterMissingCRDs
  rw [h0.1, h0.2]
  simp [filterLoop]

/-- The whole call on a list whose last non-resolvable entry is `x`. -/
theorem filterMissingCRDs_split (w : World) (pre : List CRD) (x : CRD) (post : List CRD)
    (h : ∀ y ∈ post, (w.Get (crdName w y)).resolvable = true) :
    (filterMissingCRDs w (pre ++ x :: post)).expectedCRDs
        = (filterLoop w (pre.length + 1) (pre ++ x :: missing w post)).expectedCRDs ∧
    (filterMissingCRDs w (pre ++ x :: post)).result
        = (filterLoop w (pre.length + 1) (pre ++ x :: missing w post)).result := by
  have h0 := filterLoop_resolvable w post h (pre ++ [x]) []
  have hlen : (pre ++ x :: post).length = (pre ++ [x]).length + post.length := by
    simp only [List.length_append, List.length_cons, List.length_nil]
    omega
  have hl : pre ++ x :: post = pre ++ [x] ++ post ++ [] := by simp
  have hl2 : pre ++ [x] ++ (missing w post ++ []) = pre ++ x :: missing w post := by simp
  have hlen2 : (pre ++ [x]).length = pre.length + 1 := by simp
  unfold filterMissingCRDs
  rw [hlen, hl, h0.1, h0.2, hl2, hlen2]
  exact ⟨rfl, rfl⟩

/-- The filter only queries and logs: it submits nothing and never calls the classifier. -/
theorem filterLoop_trace (w : World) (n : Nat) :
    ∀ xs : List CRD, submitted (filterLoop w n xs).trace = [] ∧
      consulted (filterLoop w n xs).trace = 0 := by
  induction n with
  | zero => intro xs; simp [filterLoop, submitted, consulted]
  | succ i ih =>
    intro xs
    unfold filterLoop
    cases hx : xs[i]? with
    | none => simp [submitted, consulted]
    | some c =>
      simp only []
      cases hg : w.Get (crdName w c) with
      | found sv =>
        cases sv with
        | nil => simp [submitted, consulted]
        | cons v vs => simpa [submitted, consulted] using ih _
      | notFound m => simpa [submitted, consulted] using ih _
      | failed m => simp [submitted, consulted]

theorem resolvable_of_not (r : GetResult) (h1 : r.isFailed = false) (h2 : r.faults = false) :
    r.resolvable = true := by
  cases r with
  | found sv => cases sv <;> simp_all [GetResult.resolvable, GetResult.faults]
  | notFound m => rfl
  | failed m => simp [GetResult.isFailed] at h1

/-- The last entry of a list that satisfies a test, with what precedes and follows it. -/
theorem exists_last_sat {α : Type} (p : α → Bool) (xs : List α) (h : ∃ x ∈ xs, p x = true) :
    ∃ pre x post, xs = pre ++ x :: post ∧ p x = true ∧ ∀ y ∈ post, p y = false := by
  induction xs with
  | nil => obtain ⟨x, hx, _⟩ := h; cases hx
  | cons a t ih =>
    by_cases ht : ∃ x ∈ t, p x = true
    · obtain ⟨pre, x, post, he, hp, hpost⟩ := ih ht
      exact ⟨a :: pre, x, post, by rw [he]; rfl, hp, hpost⟩
    · obtain ⟨x, hx, hpx⟩ := h
      have hall : ∀ y ∈ t, p y = false := by
        intro y hy
        cases hpy : p y with
        | false => rfl
        | true => exact absurd ⟨y, hy, hpy⟩ ht
      rcases List.mem_cons.mp hx with rfl | hxt
      · exact ⟨[], x, t, rfl, hpx, hall⟩
      · exact absurd ⟨x, hxt, hpx⟩ ht

/-- The call on a list whose last failing entry is `x`, the entries after it resolvable. -/
theorem filterMissingCRDs_failed (w : World) (pre : List CRD) (x : CRD) (post : List CRD)
    (m : String) (hx : w.Get (crdName w x) = GetResult.failed m)
    (h : ∀ y ∈ post, (w.Get (crdName w y)).resolvable = true) :
    (filterMissingCRDs w (pre ++ x :: post)).expectedCRDs = [] ∧
    (filterMissingCRDs w (pre ++ x :: post)).result
        = Result.error ("failed to check CRD " ++ crdName w x ++ ": " ++ m) := by
  have hs := filterMissingCRDs_split w pre x post h
  have hf := filterLoop_failed w pre x (missing w post) m hx
  exact ⟨hs.1.trans hf.1, hs.2.trans hf.2⟩

/-- The call on a list whose last non-resolvable entry is a record without stored version. -/
theorem filterMissingCRDs_faults (w : World) (pre : List CRD) (x : CRD) (post : List CRD)
    (hx : w.Get (crdName w x) = GetResult.found [])
    (h : ∀ y ∈ post, (w.Get (crdName w y)).resolvable = true) :
    (filterMissingCRDs w (pre ++ x :: post)).expectedCRDs = pre ++ x :: missing w post ∧
    (filterMissingCRDs w (pre ++ x :: post)).result
        = Result.panic "index out of range [0] with length 0" := by
  have hs := filterMissingCRDs_split w pre x post h
  have hf := filterLoop_empty w pre x (missing w post) hx
  exact ⟨hs.1.trans hf.1, hs.2.trans hf.2⟩

/-- Without a record lacking stored versions the call ends with nil or with an error. -/
theorem filterMissingCRDs_returns (w : World) (xs : List CRD)
    (h : ∀ x ∈ xs, (w.Get (crdName w x)).faults = false) :
    (filterMissingCRDs w xs).result = Result.nil ∨
      ∃ e, (filterMissingCRDs w xs).result = Result.error e := by
  by_cases hf : ∃ x ∈ xs, (w.Get (crdName w x)).isFailed = true
  · obtain ⟨pre, x, post, he, hx, hpost⟩ :=
      exists_last_sat (fun x => (w.Get (crdName w x)).isFailed) xs hf
    have hres : ∀ y ∈ post, (w.Get (crdName w y)).resolvable = true := by
      intro y hy
      exact resolvable_of_not _ (hpost y hy)
        (h y (by rw [he]; exact List.mem_append_right _ (List.mem_cons_of_mem _ hy)))
    cases hg : w.Get (crdName w x) with
    | failed m =>
      right
      rw [he]
      exact ⟨_, (filterMissingCRDs_failed w pre x post m hg hres).2⟩
    | found sv => simp [hg, GetResult.isFailed] at hx
    | notFound m => simp [hg, GetResult.isFailed] at hx
  · left
    refine (filterMissingCRDs_resolvable w xs ?_).2
    intro x hx
    refine resolvable_of_not _ ?_ (h x hx)
    cases hb : (w.Get (crdName w x)).isFailed with
    | false => rfl
    | true => exact absurd ⟨x, hx, hb⟩ hf

/-! ## Traces -/

theorem submitted_append (a b : List Event) : submitted (a ++ b) = submitted a ++ submitted b := by
  induction a with
  | nil => rfl
  | cons e a ih => cases e <;> simp [submitted, ih]

theorem consulted_append (a b : List Event) : consulted (a ++ b) = consulted a + consulted b := by
  induction a with
  | nil => simp [consulted]
  | cons e a ih =>
    cases e <;> simp [consulted, ih]
    omega

theorem queries_append (a b : List Event) : queries (a ++ b) = queries a ++ queries b := by
  induction a with
  | nil => rfl
  | cons e a ih => cases e <;> simp [queries, ih]

theorem filterMissingCRDs_trace (w : World) (xs : List CRD) :
    submitted (filterMissingCRDs w xs).trace = [] ∧
      consulted (filterMissingCRDs w xs).trace = 0 :=
  filterLoop_trace w xs.length xs

/-! ## The ownership check and the planner -/

/-- The value of the ownership check: false exactly for an enabled detection and a runtime
string `k3s` or `rke2`. -/
theorem shouldManage_value (w : World) :
    (shouldManageHelmControllerCRDs w).value =
      !(w.Getenv "DETECT_K3S_RKE2" == "true" &&
        (w.IdentifyKubernetesRuntimeType.1 == "k3s" ||
          w.IdentifyKubernetesRuntimeType.1 == "rke2")) := by
  unfold shouldManageHelmControllerCRDs
  by_cases h : w.Getenv "DETECT_K3S_RKE2" = "true" <;> simp [h]

/-- The ownership check queries nothing and submits nothing; it calls the classifier once
when the detection is enabled and not at all otherwise. -/
theorem shouldManage_trace (w : World) :
    submitted (shouldManageHelmControllerCRDs w).trace = [] ∧
    queries (shouldManageHelmControllerCRDs w).trace = [] ∧
    consulted (shouldManageHelmControllerCRDs w).trace
      = if w.Getenv "DETECT_K3S_RKE2" = "true" then 1 else 0 := by
  unfold shouldManageHelmControllerCRDs
  by_cases h : w.Getenv "DETECT_K3S_RKE2" = "true"
  · simp only [h, bne_self_eq_false, Bool.false_eq_true, if_false, if_true]
    cases w.IdentifyKubernetesRuntimeType.2 <;>
    by_cases hk : (w.IdentifyKubernetesRuntimeType.1 == "k3s"
        || w.IdentifyKubernetesRuntimeType.1 == "rke2") = true <;>
      simp [hk, submitted, queries, consulted]
  · simp [h, submitted, queries, consulted]

theorem createPlan_trace (w : World) (g1 g2 g3 : List CRD) :
    submitted (createPlan w g1 g2 g3).trace = [mergedPlan w g1 g2 g3] ∧
    queries (createPlan w g1 g2 g3).trace = [] ∧
    consulted (createPlan w g1 g2 g3).trace
      = if w.Getenv "DETECT_K3S_RKE2" = "true" then 1 else 0 := by
  have ht := shouldManage_trace w
  simp only [createPlan, submitted_append, queries_append, consulted_append, ht.1, ht.2.1,
    ht.2.2, mergedPlan]
  simp [submitted, queries, consulted]

theorem createPlan_result (w : World) (g1 g2 g3 : List CRD) :
    (createPlan w g1 g2 g3).result =
      match w.BatchCreateCRDs (mergedPlan w g1 g2 g3) with
      | none => Result.nil
      | some e => Result.error e := by
  simp only [createPlan, mergedPlan]

/-- The forced run: no filter, then the merge and the creation. -/
theorem Create_forced (w : World) (h : w.NewFactoryFromClient = none) :
    Create w true =
      ⟨(createPlan w w.catalog.crds w.catalog.helmLockerCrdDefs
          w.catalog.helmControllerCrdDefs).result,
       Event.newFactory ::
         Event.log Level.debug "UpdateCRDs is Enabled; all CRDs will be installed." ::
         (createPlan w w.catalog.crds w.catalog.helmLockerCrdDefs
           w.catalog.helmControllerCrdDefs).trace⟩ := by
  simp [Create, h]

theorem Create_filtered (w : World) (h : w.NewFactoryFromClient = none) :
    Create w false =
      ⟨(createFiltered w).result, Event.newFactory :: (createFiltered w).trace⟩ := by
  simp [Create, h]

theorem Create_no_factory (w : World) (b : Bool) (e : String)
    (h : w.NewFactoryFromClient = some e) :
    Create w b = ⟨Result.error e, [Event.newFactory]⟩ := by
  simp [Create, h]

/-- The filtered run when the filter of the first group does not return nil. -/
theorem createFiltered_stop1 (w : World)
    (h1 : (filterMissingCRDs w w.catalog.crds).result ≠ Result.nil) :
    createFiltered w = ⟨(filterMissingCRDs w w.catalog.crds).result,
      (filterMissingCRDs w w.catalog.crds).trace⟩ := by
  cases hr : (filterMissingCRDs w w.catalog.crds).result with
  | nil => exact absurd hr h1
  | error e => simp only [createFiltered, hr]
  | panic e => simp only [createFiltered, hr]

/-- The filtered run when the filter of the second group does not return nil. -/
theorem createFiltered_stop2 (w : World)
    (h1 : (filterMissingCRDs w w.catalog.crds).result = Result.nil)
    (h2 : (filterMissingCRDs w w.catalog.helmLockerCrdDefs).result ≠ Result.nil) :
    createFiltered w = ⟨(filterMissingCRDs w w.catalog.helmLockerCrdDefs).result,
      (filterMissingCRDs w w.catalog.crds).trace
        ++ (filterMissingCRDs w w.catalog.helmLockerCrdDefs).trace⟩ := by
  cases hr : (filterMissingCRDs w w.catalog.helmLockerCrdDefs).result with
  | nil => exact absurd hr h2
  | error e => simp only [createFiltered, h1, hr]
  | panic e => simp only [createFiltered, h1, hr]

/-- The filtered run when the filter of the third group does not return nil. -/
theorem createFiltered_stop3 (w : World)
    (h1 : (filterMissingCRDs w w.catalog.crds).result = Result.nil)
    (h2 : (filterMissingCRDs w w.catalog.helmLockerCrdDefs).result = Result.nil)
    (h3 : (filterMissingCRDs w w.catalog.helmControllerCrdDefs).result ≠ Result.nil) :
    createFiltered w = ⟨(filterMissingCRDs w w.catalog.helmControllerCrdDefs).result,
      (filterMissingCRDs w w.catalog.crds).trace
        ++ (filterMissingCRDs w w.catalog.helmLockerCrdDefs).trace
        ++ (filterMissingCRDs w w.catalog.helmControllerCrdDefs).trace⟩ := by
  cases hr : (filterMissingCRDs w w.catalog.helmControllerCrdDefs).result with
  | nil => exact absurd hr h3
  | error e => simp only [createFiltered, h1, h2, hr]
  | panic e => simp only [createFiltered, h1, h2, hr]

/-- The filtered run when the three filters return nil. -/
theorem createFiltered_go (w : World)
    (h1 : (filterMissingCRDs w w.catalog.crds).result = Result.nil)
    (h2 : (filterMissingCRDs w w.catalog.helmLockerCrdDefs).result = Result.nil)
    (h3 : (filterMissingCRDs w w.catalog.helmControllerCrdDefs).result = Result.nil) :
    createFiltered w =
      ⟨(createPlan w (filterMissingCRDs w w.catalog.crds).expectedCRDs
          (filterMissingCRDs w w.catalog.helmLockerCrdDefs).expectedCRDs
          (filterMissingCRDs w w.catalog.helmControllerCrdDefs).expectedCRDs).result,
       (filterMissingCRDs w w.catalog.crds).trace
        ++ (filterMissingCRDs w w.catalog.helmLockerCrdDefs).trace
        ++ (filterMissingCRDs w w.catalog.helmControllerCrdDefs).trace
        ++ (createPlan w (filterMissingCRDs w w.catalog.crds).expectedCRDs
          (filterMissingCRDs w w.catalog.helmLockerCrdDefs).expectedCRDs
          (filterMissingCRDs w w.catalog.helmControllerCrdDefs).expectedCRDs).trace⟩ := by
  simp only [createFiltered, h1, h2, h3]

/-- What the filtered run submits: the merge of the three filtered groups when the three
filters return nil, nothing otherwise. -/
theorem createFiltered_submitted (w : World) :
    submitted (createFiltered w).trace =
      if (filterMissingCRDs w w.catalog.crds).result = Result.nil ∧
          (filterMissingCRDs w w.catalog.helmLockerCrdDefs).result = Result.nil ∧
          (filterMissingCRDs w w.catalog.helmControllerCrdDefs).result = Result.nil then
        [mergedPlan w (filterMissingCRDs w w.catalog.crds).expectedCRDs
          (filterMissingCRDs w w.catalog.helmLockerCrdDefs).expectedCRDs
          (filterMissingCRDs w w.catalog.helmControllerCrdDefs).expectedCRDs]
      else [] := by
  have t1 := (filterMissingCRDs_trace w w.catalog.crds).1
  have t2 := (filterMissingCRDs_trace w w.catalog.helmLockerCrdDefs).1
  have t3 := (filterMissingCRDs_trace w w.catalog.helmControllerCrdDefs).1
  by_cases h1 : (filterMissingCRDs w w.catalog.crds).result = Result.nil
  · by_cases h2 : (filterMissingCRDs w w.catalog.helmLockerCrdDefs).result = Result.nil
    · by_cases h3 : (filterMissingCRDs w w.catalog.helmControllerCrdDefs).result = Result.nil
      · rw [createFiltered_go w h1 h2 h3]
        simp [submitted_append, t1, t2, t3, (createPlan_trace w _ _ _).1, h1, h2, h3]
      · rw [createFiltered_stop3 w h1 h2 h3]
        simp [submitted_append, t1, t2, t3, h3]
    · rw [createFiltered_stop2 w h1 h2]
      simp [submitted_append, t1, t2, h2]
  · rw [createFiltered_stop1 w h1]
    simp [t1, h1]

theorem createFiltered_consulted (w : World) (h : w.Getenv "DETECT_K3S_RKE2" ≠ "true") :
    consulted (createFiltered w).trace = 0 := by
  have t1 := (filterMissingCRDs_trace w w.catalog.crds).2
  have t2 := (filterMissingCRDs_trace w w.catalog.helmLockerCrdDefs).2
  have t3 := (filterMissingCRDs_trace w w.catalog.helmControllerCrdDefs).2
  by_cases h1 : (filterMissingCRDs w w.catalog.crds).result = Result.nil
  · by_cases h2 : (filterMissingCRDs w w.catalog.helmLockerCrdDefs).result = Result.nil
    · by_cases h3 : (filterMissingCRDs w w.catalog.helmControllerCrdDefs).result = Result.nil
      · rw [createFiltered_go w h1 h2 h3]
        simp [consulted_append, t1, t2, t3, (createPlan_trace w _ _ _).2.2, h]
      · rw [createFiltered_stop3 w h1 h2 h3]
        simp [consulted_append, t1, t2, t3]
    · rw [createFiltered_stop2 w h1 h2]
      simp [consulted_append, t1, t2]
  · rw [createFiltered_stop1 w h1]
    simp [t1]

/-- What a forced `Create` submits. -/
theorem Create_submitted_forced (w : World) :
    submitted (Create w true).trace =
      match w.NewFactoryFromClient with
      | some _ => []
      | none => [mergedPlan w w.catalog.crds w.catalog.helmLockerCrdDefs
          w.catalog.helmControllerCrdDefs] := by
  cases hf : w.NewFactoryFromClient with
  | some e => rw [Create_no_factory w true e hf]; simp [submitted]
  | none =>
    rw [Create_forced w hf]
    simp [submitted, (createPlan_trace w _ _ _).1]

/-- What an unforced `Create` submits. -/
theorem Create_submitted_filtered (w : World) :
    submitted (Create w false).trace =
      match w.NewFactoryFromClient with
      | some _ => []
      | none => submitted (createFiltered w).trace := by
  cases hf : w.NewFactoryFromClient with
  | some e => rw [Create_no_factory w false e hf]; simp [submitted]
  | none =>
    rw [Create_filtered w hf]
    simp [submitted]

theorem Create_consulted (w : World) (h : w.Getenv "DETECT_K3S_RKE2" ≠ "true") (b : Bool) :
    consulted (Create w b).trace = 0 := by
  cases hf : w.NewFactoryFromClient with
  | some e => rw [Create_no_factory w b e hf]; simp [consulted]
  | none =>
    cases b with
    | true =>
      rw [Create_forced w hf]
      simp [consulted, (createPlan_trace w _ _ _).2.2, h]
    | false =>
      rw [Create_filtered w hf]
      simp [consulted, createFiltered_consulted w h]

theorem remove_sublist (xs : List CRD) (i : Nat) :
    (xs.take i ++ xs.drop (i + 1)).Sublist xs := by
  have h1 : (xs.drop (i + 1)).Sublist (xs.drop i) := by
    have h := List.drop_sublist 1 (xs.drop i)
    rwa [List.drop_drop] at h
  have h2 := List.Sublist.append (List.Sublist.refl (xs.take i)) h1
  rwa [List.take_append_drop] at h2

/-- Whatever the cluster answers, the filter only removes entries. -/
theorem filterLoop_sublist (w : World) (n : Nat) :
    ∀ xs : List CRD, (filterLoop w n xs).expectedCRDs.Sublist xs := by
  induction n with
  | zero => intro xs; simp [filterLoop]
  | succ i ih =>
    intro xs
    unfold filterLoop
    cases hx : xs[i]? with
    | none => simp
    | some c =>
      simp only []
      cases hg : w.Get (crdName w c) with
      | found sv =>
        cases sv with
        | nil => simp
        | cons v vs => exact (ih _).trans (remove_sublist xs i)
      | notFound m => exact ih xs
      | failed m => simp

theorem filterMissingCRDs_sublist (w : World) (xs : List CRD) :
    (filterMissingCRDs w xs).expectedCRDs.Sublist xs :=
  filterLoop_sublist w xs.length xs

/-- Every list a forced `Create` submits is the merge of the unfiltered groups. -/
theorem Create_plan_forced (w : World) :
    ∀ plan ∈ submitted (Create w true).trace,
      plan = mergedPlan w w.catalog.crds w.catalog.helmLockerCrdDefs
        w.catalog.helmControllerCrdDefs := by
  intro plan hp
  rw [Create_submitted_forced] at hp
  cases hf : w.NewFactoryFromClient with
  | some e => simp [hf] at hp
  | none => simpa [hf] using hp

/-- Every list an unforced `Create` submits is the merge of the filtered groups. -/
theorem Create_plan_filtered (w : World) :
    ∀ plan ∈ submitted (Create w false).trace,
      plan = mergedPlan w (filterMissingCRDs w w.catalog.crds).expectedCRDs
        (filterMissingCRDs w w.catalog.helmLockerCrdDefs).expectedCRDs
        (filterMissingCRDs w w.catalog.helmControllerCrdDefs).expectedCRDs := by
  intro plan hp
  rw [Create_submitted_filtered] at hp
  cases hf : w.NewFactoryFromClient with
  | some e => simp [hf] at hp
  | none =>
    simp only [hf, createFiltered_submitted] at hp
    split at hp
    · simpa using hp
    · simp at hp

theorem mergedPlan_eq (w : World) (g1 g2 g3 : List CRD) :
    mergedPlan w g1 g2 g3
      = g1 ++ g2 ++ (if (shouldManageHelmControllerCRDs w).value then g3 else []) := by
  unfold mergedPlan
  cases (shouldManageHelmControllerCRDs w).value <;> simp

/-- Once the factory is built, a forced `Create` submits exactly one list: the merge of the
unfiltered groups. -/
theorem Create_submits_forced (w : World) (hf : w.NewFactoryFromClient = none) :
    submitted (Create w true).trace
      = [w.catalog.crds ++ w.catalog.helmLockerCrdDefs ++
          (if (shouldManageHelmControllerCRDs w).value then w.catalog.helmControllerCrdDefs
           else [])] := by
  rw [Create_submitted_forced, hf, mergedPlan_eq]

/-- Once the factory is built and the three filters return nil, an unforced `Create`
submits exactly one list: the merge of the filtered groups. -/
theorem Create_submits_filtered (w : World) (hf : w.NewFactoryFromClient = none)
    (h1 : (filterMissingCRDs w w.catalog.crds).result = Result.nil)
    (h2 : (filterMissingCRDs w w.catalog.helmLockerCrdDefs).result = Result.nil)
    (h3 : (filterMissingCRDs w w.catalog.helmControllerCrdDefs).result = Result.nil) :
    submitted (Create w false).trace
      = [(filterMissingCRDs w w.catalog.crds).expectedCRDs
          ++ (filterMissingCRDs w w.catalog.helmLockerCrdDefs).expectedCRDs ++
          (if (shouldManageHelmControllerCRDs w).value then
            (filterMissingCRDs w w.catalog.helmControllerCrdDefs).expectedCRDs
           else [])] := by
  rw [Create_submitted_filtered, hf]
  simp only [createFiltered_submitted, h1, h2, h3, and_self, if_true, mergedPlan_eq]

/-! ## The existence filter: claims -/

/-- **C1.** When every existence query of the expected list answers "found" with a
non-empty stored-version list or "not found", `filterMissingCRDs` returns nil and leaves
exactly the "not found" entries in their original relative order: the result is the input
filtered by "the query is not found", so an entry stays iff its query is not found. -/
theorem C1_filter_keeps_exactly_not_found (w : World) (expected : List CRD)
    (h : ∀ x ∈ expected, (w.Get (crdName w x)).resolvable = true) :
    (filterMissingCRDs w expected).result = Result.nil ∧
    (filterMissingCRDs w expected).expectedCRDs
      = expected.filter (fun x => (w.Get (crdName w x)).isNotFound) ∧
    (filterMissingCRDs w expected).expectedCRDs.Sublist expected ∧
    ∀ x ∈ expected, (x ∈ (filterMissingCRDs w expected).expectedCRDs ↔
      (w.Get (crdName w x)).isNotFound = true) := by
  have hr := filterMissingCRDs_resolvable w expected h
  refine ⟨hr.2, hr.1, ?_, ?_⟩
  · rw [hr.1]; exact missing_sublist w expected
  · intro x hx
    rw [hr.1]
    simp [missing, hx]

theorem C1_filter_keeps_exactly_not_found_witness :
    (∀ x ∈ [sampleCRD "ProjectHelmChart", sampleCRD "HelmChart", sampleCRD "HelmRelease",
          sampleCRD "HelmChartConfig"],
        ((sampleWorld lockerPresent "" ("", none)).Get
          (crdName (sampleWorld lockerPresent "" ("", none)) x)).resolvable = true) ∧
    (filterMissingCRDs (sampleWorld lockerPresent "" ("", none))
        [sampleCRD "ProjectHelmChart", sampleCRD "HelmChart", sampleCRD "HelmRelease",
          sampleCRD "HelmChartConfig"]).expectedCRDs
      = [sampleCRD "ProjectHelmChart", sampleCRD "HelmRelease"] :=
  ⟨by decide,
   (C1_filter_keeps_exactly_not_found (sampleWorld lockerPresent "" ("", none))
      [sampleCRD "ProjectHelmChart", sampleCRD "HelmChart", sampleCRD "HelmRelease",
        sampleCRD "HelmChartConfig"] (by decide)).2.1.trans (by decide)⟩

/-- **C2.** When the query of at least one entry fails with an error other than "not
found" and no found record has an empty stored-version list, `filterMissingCRDs` returns
an error and leaves the list empty; the error is the one wrapped for the failing entry of
highest index, which is the first one the reverse pass reaches, whatever the entries
before it answer. -/
theorem C2_filter_error_clears_list (w : World) (expected : List CRD)
    (hfail : ∃ x ∈ expected, (w.Get (crdName w x)).isFailed = true)
    (hver : ∀ x ∈ expected, (w.Get (crdName w x)).faults = false) :
    (filterMissingCRDs w expected).expectedCRDs = [] ∧
    ∃ pre x post m, expected = pre ++ x :: post ∧
      w.Get (crdName w x) = GetResult.failed m ∧
      (∀ y ∈ post, (w.Get (crdName w y)).isFailed = false) ∧
      (filterMissingCRDs w expected).result
        = Result.error ("failed to check CRD " ++ crdName w x ++ ": " ++ m) := by
  obtain ⟨pre, x, post, he, hx, hpost⟩ :=
    exists_last_sat (fun x => (w.Get (crdName w x)).isFailed) expected hfail
  have hres : ∀ y ∈ post, (w.Get (crdName w y)).resolvable = true := by
    intro y hy
    exact resolvable_of_not _ (hpost y hy)
      (hver y (by rw [he]; exact List.mem_append_right _ (List.mem_cons_of_mem _ hy)))
  cases hg : w.Get (crdName w x) with
  | failed m =>
    have hf := filterMissingCRDs_failed w pre x post m hg hres
    refine ⟨by rw [he]; exact hf.1, pre, x, post, m, he, hg, hpost, ?_⟩
    rw [he]; exact hf.2
  | found sv => simp [hg, GetResult.isFailed] at hx
  | notFound m => simp [hg, GetResult.isFailed] at hx

theorem C2_filter_error_clears_list_witness :
    (∃ x ∈ [sampleCRD "ProjectHelmChart", sampleCRD "HelmChartConfig", sampleCRD "HelmChart"],
        ((sampleWorld configsUnreachable "" ("", none)).Get
          (crdName (sampleWorld configsUnreachable "" ("", none)) x)).isFailed = true) ∧
    (filterMissingCRDs (sampleWorld configsUnreachable "" ("", none))
        [sampleCRD "ProjectHelmChart", sampleCRD "HelmChartConfig",
          sampleCRD "HelmChart"]).expectedCRDs = [] ∧
    (filterMissingCRDs (sampleWorld configsUnreachable "" ("", none))
        [sampleCRD "ProjectHelmChart", sampleCRD "HelmChartConfig",
          sampleCRD "HelmChart"]).result
      = Result.error "failed to check CRD helmchartconfigs.helm.cattle.io: timeout" :=
  ⟨by decide,
   (C2_filter_error_clears_list (sampleWorld configsUnreachable "" ("", none))
      [sampleCRD "ProjectHelmChart", sampleCRD "HelmChartConfig", sampleCRD "HelmChart"]
      (by decide) (by decide)).1,
   by decide⟩

/-- **C10.** The stored-version list of a found record is indexed at 0 without a guard.
When no found record has an empty stored-version list the call never panics: it returns
nil or an error.  When the reverse pass reaches a found record with an empty list (the
entries after it being resolvable), the call panics on the index: it does not return, and
the entry is still in the list. -/
theorem C10_unguarded_stored_version_index (w : World) :
    (∀ expected : List CRD,
      (∀ x ∈ expected, (w.Get (crdName w x)).faults = false) →
      (∀ m, (filterMissingCRDs w expected).result ≠ Result.panic m) ∧
      ((filterMissingCRDs w expected).result = Result.nil ∨
        ∃ e, (filterMissingCRDs w expected).result = Result.error e)) ∧
    (∀ (pre : List CRD) (x : CRD) (post : List CRD),
      w.Get (crdName w x) = GetResult.found [] →
      (∀ y ∈ post, (w.Get (crdName w y)).resolvable = true) →
      (filterMissingCRDs w (pre ++ x :: post)).result
        = Result.panic "index out of range [0] with length 0" ∧
      x ∈ (filterMissingCRDs w (pre ++ x :: post)).expectedCRDs) := by
  constructor
  · intro expected h
    have hr := filterMissingCRDs_returns w expected h
    refine ⟨?_, hr⟩
    intro m hm
    rcases hr with h1 | ⟨e, h1⟩ <;> rw [h1] at hm <;> cases hm
  · intro pre x post hx hpost
    have hf := filterMissingCRDs_faults w pre x post hx hpost
    refine ⟨hf.2, ?_⟩
    rw [hf.1]
    simp

theorem C10_unguarded_stored_version_index_witness :
    ((filterMissingCRDs (sampleWorld lockerPresent "" ("", none))
        [sampleCRD "ProjectHelmChart", sampleCRD "HelmChart"]).result = Result.nil ∨
      ∃ e, (filterMissingCRDs (sampleWorld lockerPresent "" ("", none))
        [sampleCRD "ProjectHelmChart", sampleCRD "HelmChart"]).result = Result.error e) ∧
    (filterMissingCRDs (sampleWorld chartsUnversioned "" ("", none))
        ([sampleCRD "ProjectHelmChart"] ++ sampleCRD "HelmChart" :: [sampleCRD "HelmRelease"])).result
      = Result.panic "index out of range [0] with length 0" :=
  ⟨((C10_unguarded_stored_version_index (sampleWorld lockerPresent "" ("", none))).1
      [sampleCRD "ProjectHelmChart", sampleCRD "HelmChart"] (by decide)).2,
   ((C10_unguarded_stored_version_index (sampleWorld chartsUnversioned "" ("", none))).2
      [sampleCRD "ProjectHelmChart"] (sampleCRD "HelmChart") [sampleCRD "HelmRelease"]
      (by decide) (by decide)).1⟩

/-! ## The planner: claims -/

/-- **C3 (counterexample).** With `shouldUpdateCRDs = true`, the detection toggle set to
`true` and the runtime `k3s`, the submitted list is the primary definition and the two
locker dependencies: the controller dependency `HelmRelease` of the catalog is not in it. -/
theorem C3_controller_group_dropped_when_forced :
    submitted (Create (sampleWorld lockerPresent "true" ("k3s", none)) true).trace
      = [[sampleCRD "ProjectHelmChart", sampleCRD "HelmChart", sampleCRD "HelmChartConfig"]] ∧
    sampleCRD "HelmRelease"
      ∈ (sampleWorld lockerPresent "true" ("k3s", none)).catalog.helmControllerCrdDefs ∧
    sampleCRD "HelmRelease"
      ∉ [sampleCRD "ProjectHelmChart", sampleCRD "HelmChart", sampleCRD "HelmChartConfig"] := by
  decide

/-- **C3 (amended).** With `shouldUpdateCRDs = true` no existence query is issued, and
once the factory is built exactly one list is submitted: the primary group, then the
locker dependencies, then the controller dependencies when the ownership check says so
and nothing otherwise.  It holds every primary and every locker definition for every
cluster state, and every controller definition when the ownership check returns true. -/
theorem C3_forced_plan (w : World) :
    queries (Create w true).trace = [] ∧
    (w.NewFactoryFromClient = none →
      submitted (Create w true).trace
        = [w.catalog.crds ++ w.catalog.helmLockerCrdDefs ++
            (if (shouldManageHelmControllerCRDs w).value then w.catalog.helmControllerCrdDefs
             else [])]) ∧
    (∀ plan ∈ submitted (Create w true).trace,
      (∀ x ∈ w.catalog.crds, x ∈ plan) ∧ (∀ x ∈ w.catalog.helmLockerCrdDefs, x ∈ plan) ∧
      ((shouldManageHelmControllerCRDs w).value = true →
        ∀ x ∈ w.catalog.helmControllerCrdDefs, x ∈ plan)) := by
  cases hf : w.NewFactoryFromClient with
  | some e =>
    rw [Create_no_factory w true e hf]
    simp [queries, submitted]
  | none =>
    have ht := createPlan_trace w w.catalog.crds w.catalog.helmLockerCrdDefs
      w.catalog.helmControllerCrdDefs
    have hs : submitted (Create w true).trace
        = [mergedPlan w w.catalog.crds w.catalog.helmLockerCrdDefs
            w.catalog.helmControllerCrdDefs] := by
      rw [Create_forced w hf]
      simp [submitted, ht.1]
    refine ⟨?_, ?_, ?_⟩
    · rw [Create_forced w hf]
      simp [queries, ht.2.1]
    · intro _
      rw [hs]
      unfold mergedPlan
      cases (shouldManageHelmControllerCRDs w).value <;> simp
    · intro plan hp
      rw [hs] at hp
      rw [List.mem_singleton.mp hp]
      unfold mergedPlan
      cases hv : (shouldManageHelmControllerCRDs w).value <;> simp <;> tauto

theorem C3_forced_plan_witness :
    (sampleWorld configsUnreachable "" ("", none)).NewFactoryFromClient = none ∧
    submitted (Create (sampleWorld configsUnreachable "" ("", none)) true).trace
      = [[sampleCRD "ProjectHelmChart", sampleCRD "HelmChart", sampleCRD "HelmChartConfig",
          sampleCRD "HelmRelease"]] :=
  ⟨rfl, ((C3_forced_plan (sampleWorld configsUnreachable "" ("", none))).2.1 rfl).trans
    (by decide)⟩

/-- **C4.** The ownership check returns false exactly when `DETECT_K3S_RKE2` is `true`
and the classifier reports `k3s` or `rke2`; when the toggle is not `true` the classifier
is not called.  Once the factory is built, a forced `Create` submits exactly one list, and
so does an unforced one whose three filters return nil: the first two groups (as they
stand after the filters, or unfiltered when forced) followed by the third group when the
check returns true and by nothing when it returns false.  No other list is ever
submitted, and when the check returns false every entry of a submitted list comes from
the primary or the locker group, whatever the existence queries of the controller group
answer. -/
theorem C4_controller_group_gate (w : World) :
    ((shouldManageHelmControllerCRDs w).value = false ↔
      (w.Getenv "DETECT_K3S_RKE2" = "true" ∧
        (w.IdentifyKubernetesRuntimeType.1 = "k3s" ∨
          w.IdentifyKubernetesRuntimeType.1 = "rke2"))) ∧
    (w.Getenv "DETECT_K3S_RKE2" ≠ "true" →
      consulted (shouldManageHelmControllerCRDs w).trace = 0 ∧
      ∀ b, consulted (Create w b).trace = 0) ∧
    (w.NewFactoryFromClient = none →
      submitted (Create w true).trace
        = [w.catalog.crds ++ w.catalog.helmLockerCrdDefs ++
            (if (shouldManageHelmControllerCRDs w).value then w.catalog.helmControllerCrdDefs
             else [])]) ∧
    (w.NewFactoryFromClient = none →
      (filterMissingCRDs w w.catalog.crds).result = Result.nil →
      (filterMissingCRDs w w.catalog.helmLockerCrdDefs).result = Result.nil →
      (filterMissingCRDs w w.catalog.helmControllerCrdDefs).result = Result.nil →
      submitted (Create w false).trace
        = [(filterMissingCRDs w w.catalog.crds).expectedCRDs
            ++ (filterMissingCRDs w w.catalog.helmLockerCrdDefs).expectedCRDs ++
            (if (shouldManageHelmControllerCRDs w).value then
              (filterMissingCRDs w w.catalog.helmControllerCrdDefs).expectedCRDs
             else [])]) ∧
    (∀ plan ∈ submitted (Create w true).trace,
      plan = w.catalog.crds ++ w.catalog.helmLockerCrdDefs ++
        (if (shouldManageHelmControllerCRDs w).value then w.catalog.helmControllerCrdDefs
         else [])) ∧
    (∀ plan ∈ submitted (Create w false).trace,
      plan = (filterMissingCRDs w w.catalog.crds).expectedCRDs
        ++ (filterMissingCRDs w w.catalog.helmLockerCrdDefs).expectedCRDs ++
        (if (shouldManageHelmControllerCRDs w).value then
          (filterMissingCRDs w w.catalog.helmControllerCrdDefs).expectedCRDs
         else [])) ∧
    ((shouldManageHelmControllerCRDs w).value = false →
      ∀ b, ∀ plan ∈ submitted (Create w b).trace, ∀ x ∈ plan,
        x ∈ w.catalog.crds ∨ x ∈ w.catalog.helmLockerCrdDefs) := by
  have hforced := Create_plan_forced w
  have hfiltered := Create_plan_filtered w
  refine ⟨?_, ?_, Create_submits_forced w, Create_submits_filtered w, ?_, ?_, ?_⟩
  · rw [shouldManage_value]
    simp only [Bool.not_eq_false_eq_eq_true, Bool.and_eq_true, Bool.or_eq_true, beq_iff_eq]
  · intro h
    refine ⟨?_, Create_consulted w h⟩
    rw [(shouldManage_trace w).2.2]
    simp [h]
  · intro plan hp
    rw [hforced plan hp, mergedPlan_eq]
  · intro plan hp
    rw [hfiltered plan hp, mergedPlan_eq]
  · intro hv b plan hp x hx
    cases b with
    | true =>
      rw [hforced plan hp] at hx
      simp only [mergedPlan, hv, Bool.false_eq_true, if_false, List.mem_append] at hx
      exact hx
    | false =>
      rw [hfiltered plan hp] at hx
      simp only [mergedPlan, hv, Bool.false_eq_true, if_false, List.mem_append] at hx
      rcases hx with hx | hx
      · exact Or.inl ((filterMissingCRDs_sublist w _).subset hx)
      · exact Or.inr ((filterMissingCRDs_sublist w _).subset hx)

theorem C4_controller_group_gate_witness :
    (sampleWorld lockerPresent "false" ("k3s", none)).Getenv "DETECT_K3S_RKE2" ≠ "true" ∧
    consulted (Create (sampleWorld lockerPresent "false" ("k3s", none)) false).trace = 0 ∧
    (shouldManageHelmControllerCRDs (sampleWorld lockerPresent "true" ("rke2", none))).value
      = false ∧
    submitted (Create (sampleWorld lockerPresent "true" ("rke2", none)) true).trace
      = [[sampleCRD "ProjectHelmChart", sampleCRD "HelmChart", sampleCRD "HelmChartConfig"]] ∧
    submitted (Create (sampleWorld lockerPresent "false" ("k3s", none)) true).trace
      = [[sampleCRD "ProjectHelmChart", sampleCRD "HelmChart", sampleCRD "HelmChartConfig",
          sampleCRD "HelmRelease"]] ∧
    submitted (Create (sampleWorld lockerPresent "false" ("k3s", none)) false).trace
      = [[sampleCRD "ProjectHelmChart", sampleCRD "HelmRelease"]] ∧
    submitted (Create (sampleWorld lockerPresent "true" ("k3s", none)) false).trace
      = [[sampleCRD "ProjectHelmChart"]] :=
  ⟨by decide,
   ((C4_controller_group_gate (sampleWorld lockerPresent "false" ("k3s", none))).2.1
      (by decide)).2 false,
   (C4_controller_group_gate (sampleWorld lockerPresent "true" ("rke2", none))).1.mpr
      (by decide),
   ((C4_controller_group_gate (sampleWorld lockerPresent "true" ("rke2", none))).2.2.1
      rfl).trans (by decide),
   ((C4_controller_group_gate (sampleWorld lockerPresent "false" ("k3s", none))).2.2.1
      rfl).trans (by decide),
   ((C4_controller_group_gate (sampleWorld lockerPresent "false" ("k3s", none))).2.2.2.1
      rfl (by decide) (by decide) (by decide)).trans (by decide),
   ((C4_controller_group_gate (sampleWorld lockerPresent "true" ("k3s", none))).2.2.2.1
      rfl (by decide) (by decide) (by decide)).trans (by decide)⟩

/-- **C5 (counterexample).** With the detection enabled, a classifier that returns the
runtime `k3s` together with an error makes the ownership check return false, and the
controller dependency is left out of the submitted list. -/
theorem C5_error_next_to_k3s_excludes_group :
    (sampleWorld lockerPresent "true" ("k3s", some "nodes is forbidden")).Getenv
      "DETECT_K3S_RKE2" = "true" ∧
    (sampleWorld lockerPresent "true"
      ("k3s", some "nodes is forbidden")).IdentifyKubernetesRuntimeType.2
      = some "nodes is forbidden" ∧
    (shouldManageHelmControllerCRDs
      (sampleWorld lockerPresent "true" ("k3s", some "nodes is forbidden"))).value = false ∧
    submitted (Create (sampleWorld lockerPresent "true"
      ("k3s", some "nodes is forbidden")) true).trace
      = [[sampleCRD "ProjectHelmChart", sampleCRD "HelmChart", sampleCRD "HelmChartConfig"]] := by
  decide

/-- **C5 (amended).** With the detection enabled, when the classifier returns an error the
ownership check logs it and decides on the runtime string returned next to the error
alone: it returns true exactly when that string is neither `k3s` nor `rke2` (so for the
empty string).  Once the factory is built, the one list a forced `Create` submits, and the
one an unforced `Create` submits after three filters that return nil, ends with the
controller group exactly in that case, and is the first two groups alone when the string
is `k3s` or `rke2`. -/
theorem C5_classifier_error_decides_on_runtime (w : World) (e : String)
    (hdet : w.Getenv "DETECT_K3S_RKE2" = "true")
    (herr : w.IdentifyKubernetesRuntimeType.2 = some e) :
    Event.log Level.error e ∈ (shouldManageHelmControllerCRDs w).trace ∧
    ((shouldManageHelmControllerCRDs w).value = true ↔
      (w.IdentifyKubernetesRuntimeType.1 ≠ "k3s" ∧
        w.IdentifyKubernetesRuntimeType.1 ≠ "rke2")) ∧
    (w.NewFactoryFromClient = none →
      submitted (Create w true).trace
        = [w.catalog.crds ++ w.catalog.helmLockerCrdDefs ++
            (if w.IdentifyKubernetesRuntimeType.1 ≠ "k3s" ∧
                w.IdentifyKubernetesRuntimeType.1 ≠ "rke2"
             then w.catalog.helmControllerCrdDefs else [])]) ∧
    (w.NewFactoryFromClient = none →
      (filterMissingCRDs w w.catalog.crds).result = Result.nil →
      (filterMissingCRDs w w.catalog.helmLockerCrdDefs).result = Result.nil →
      (filterMissingCRDs w w.catalog.helmControllerCrdDefs).result = Result.nil →
      submitted (Create w false).trace
        = [(filterMissingCRDs w w.catalog.crds).expectedCRDs
            ++ (filterMissingCRDs w w.catalog.helmLockerCrdDefs).expectedCRDs ++
            (if w.IdentifyKubernetesRuntimeType.1 ≠ "k3s" ∧
                w.IdentifyKubernetesRuntimeType.1 ≠ "rke2"
             then (filterMissingCRDs w w.catalog.helmControllerCrdDefs).expectedCRDs
             else [])]) ∧
    (w.IdentifyKubernetesRuntimeType.1 ≠ "k3s" →
      w.IdentifyKubernetesRuntimeType.1 ≠ "rke2" →
      (∀ plan ∈ submitted (Create w true).trace,
        plan = w.catalog.crds ++ w.catalog.helmLockerCrdDefs
          ++ w.catalog.helmControllerCrdDefs) ∧
      (∀ plan ∈ submitted (Create w false).trace,
        plan = (filterMissingCRDs w w.catalog.crds).expectedCRDs
          ++ (filterMissingCRDs w w.catalog.helmLockerCrdDefs).expectedCRDs
          ++ (filterMissingCRDs w w.catalog.helmControllerCrdDefs).expectedCRDs)) := by
  have hv : (shouldManageHelmControllerCRDs w).value = true ↔
      (w.IdentifyKubernetesRuntimeType.1 ≠ "k3s" ∧
        w.IdentifyKubernetesRuntimeType.1 ≠ "rke2") := by
    rw [shouldManage_value]
    simp [hdet]
  have hif : ∀ g : List CRD,
      (if (shouldManageHelmControllerCRDs w).value then g else [])
        = (if w.IdentifyKubernetesRuntimeType.1 ≠ "k3s" ∧
              w.IdentifyKubernetesRuntimeType.1 ≠ "rke2" then g else []) := by
    intro g
    by_cases hn : w.IdentifyKubernetesRuntimeType.1 ≠ "k3s" ∧
        w.IdentifyKubernetesRuntimeType.1 ≠ "rke2"
    · rw [if_pos hn, hv.mpr hn]; rfl
    · have hval : (shouldManageHelmControllerCRDs w).value = false := by
        cases hb : (shouldManageHelmControllerCRDs w).value with
        | false => rfl
        | true => exact absurd (hv.mp hb) hn
      rw [if_neg hn, hval]; rfl
  refine ⟨?_, hv, ?_, ?_, ?_⟩
  · unfold shouldManageHelmControllerCRDs
    simp [hdet, herr]
  · intro hf
    rw [Create_submits_forced w hf, hif]
  · intro hf h1 h2 h3
    rw [Create_submits_filtered w hf h1 h2 h3, hif]
  · intro h1 h2
    have hval := hv.mpr ⟨h1, h2⟩
    constructor
    · intro plan hp
      rw [Create_plan_forced w plan hp]
      simp [mergedPlan, hval]
    · intro plan hp
      rw [Create_plan_filtered w plan hp]
      simp [mergedPlan, hval]

theorem C5_classifier_error_decides_on_runtime_witness :
    (sampleWorld lockerPresent "true" ("", some "no nodes")).Getenv "DETECT_K3S_RKE2" = "true" ∧
    (sampleWorld lockerPresent "true" ("", some "no nodes")).IdentifyKubernetesRuntimeType.2
      = some "no nodes" ∧
    (shouldManageHelmControllerCRDs
      (sampleWorld lockerPresent "true" ("", some "no nodes"))).value = true ∧
    submitted (Create (sampleWorld lockerPresent "true" ("", some "no nodes")) true).trace
      = [[sampleCRD "ProjectHelmChart", sampleCRD "HelmChart", sampleCRD "HelmChartConfig",
          sampleCRD "HelmRelease"]] ∧
    submitted (Create (sampleWorld lockerPresent "true" ("rke2", some "no nodes")) false).trace
      = [[sampleCRD "ProjectHelmChart"]] :=
  ⟨by decide, rfl,
   (C5_classifier_error_decides_on_runtime (sampleWorld lockerPresent "true" ("", some "no nodes"))
      "no nodes" (by decide) rfl).2.1.mpr (by decide),
   ((C5_classifier_error_decides_on_runtime
      (sampleWorld lockerPresent "true" ("", some "no nodes"))
      "no nodes" (by decide) rfl).2.2.1 rfl).trans (by decide),
   ((C5_classifier_error_decides_on_runtime
      (sampleWorld lockerPresent "true" ("rke2", some "no nodes"))
      "no nodes" (by decide) rfl).2.2.2.1 rfl (by decide) (by decide) (by decide)).trans
      (by decide)⟩

/-- **C7 (counterexample).** Two runs in which no existence query errors and the unforced
`Create` does not submit the plan.  When the client factory cannot be built, `Create`
returns that error before any query and submits nothing.  When the record found for
`helmcharts` has no stored version, `Create` panics in the filter of the locker group and
submits nothing. -/
theorem C7_no_query_error_yet_nothing_submitted :
    (∀ x ∈ sampleCatalog.crds ++ sampleCatalog.helmLockerCrdDefs
        ++ sampleCatalog.helmControllerCrdDefs,
      (noFactoryWorld.Get (crdName noFactoryWorld x)).isFailed = false) ∧
    Create noFactoryWorld false
      = ⟨Result.error "invalid configuration", [Event.newFactory]⟩ ∧
    submitted (Create noFactoryWorld false).trace = [] ∧
    (∀ x ∈ sampleCatalog.crds ++ sampleCatalog.helmLockerCrdDefs
        ++ sampleCatalog.helmControllerCrdDefs,
      ((sampleWorld chartsUnversioned "" ("", none)).Get
        (crdName (sampleWorld chartsUnversioned "" ("", none)) x)).isFailed = false) ∧
    (Create (sampleWorld chartsUnversioned "" ("", none)) false).result
      = Result.panic "index out of range [0] with length 0" ∧
    submitted (Create (sampleWorld chartsUnversioned "" ("", none)) false).trace = [] :=
  ⟨by decide, rfl, by decide, by decide, by decide, by decide⟩

/-- **C7 (amended).** When the factory is built and every existence query of the three
groups answers "not found" or "found" with a non-empty stored-version list, the unforced
`Create` submits exactly one list, `F(G1) ++ F(G2) ++ (F(G3) if the controller group is
managed, else nothing)`, `F` keeping the "not found" entries, and returns what the batch
creation returns.  Its length is the sum of the lengths of the parts, and it has no two
entries of the same identity when the three groups together have none. -/
theorem C7_filtered_plan (w : World) (hf : w.NewFactoryFromClient = none)
    (hres : ∀ x ∈ w.catalog.crds ++ w.catalog.helmLockerCrdDefs
        ++ w.catalog.helmControllerCrdDefs, (w.Get (crdName w x)).resolvable = true) :
    submitted (Create w false).trace
      = [missing w w.catalog.crds ++ missing w w.catalog.helmLockerCrdDefs ++
          (if (shouldManageHelmControllerCRDs w).value then
            missing w w.catalog.helmControllerCrdDefs else [])] ∧
    (Create w false).result
      = (match w.BatchCreateCRDs (missing w w.catalog.crds
            ++ missing w w.catalog.helmLockerCrdDefs ++
            (if (shouldManageHelmControllerCRDs w).value then
              missing w w.catalog.helmControllerCrdDefs else [])) with
         | none => Result.nil
         | some e => Result.error e) ∧
    (missing w w.catalog.crds ++ missing w w.catalog.helmLockerCrdDefs ++
        (if (shouldManageHelmControllerCRDs w).value then
          missing w w.catalog.helmControllerCrdDefs else [])).length
      = (missing w w.catalog.crds).length + (missing w w.catalog.helmLockerCrdDefs).length
        + (if (shouldManageHelmControllerCRDs w).value then
            (missing w w.catalog.helmControllerCrdDefs).length else 0) ∧
    (((w.catalog.crds ++ w.catalog.helmLockerCrdDefs
        ++ w.catalog.helmControllerCrdDefs).map identity).Nodup →
      ((missing w w.catalog.crds ++ missing w w.catalog.helmLockerCrdDefs ++
        (if (shouldManageHelmControllerCRDs w).value then
          missing w w.catalog.helmControllerCrdDefs else [])).map identity).Nodup) := by
  have r1 := filterMissingCRDs_resolvable w w.catalog.crds
    (fun x hx => hres x (List.mem_append_left _ (List.mem_append_left _ hx)))
  have r2 := filterMissingCRDs_resolvable w w.catalog.helmLockerCrdDefs
    (fun x hx => hres x (List.mem_append_left _ (List.mem_append_right _ hx)))
  have r3 := filterMissingCRDs_resolvable w w.catalog.helmControllerCrdDefs
    (fun x hx => hres x (List.mem_append_right _ hx))
  have hm : mergedPlan w (missing w w.catalog.crds) (missing w w.catalog.helmLockerCrdDefs)
        (missing w w.catalog.helmControllerCrdDefs)
      = missing w w.catalog.crds ++ missing w w.catalog.helmLockerCrdDefs ++
          (if (shouldManageHelmControllerCRDs w).value then
            missing w w.catalog.helmControllerCrdDefs else []) := by
    unfold mergedPlan
    cases (shouldManageHelmControllerCRDs w).value <;> simp
  have hc := Create_filtered w hf
  have hg := createFiltered_go w r1.2 r2.2 r3.2
  rw [r1.1, r2.1, r3.1] at hg
  refine ⟨?_, ?_, ?_, ?_⟩
  · rw [hc, hg]
    simp only [submitted, submitted_append, (filterMissingCRDs_trace w _).1,
      (createPlan_trace w _ _ _).1, hm, List.nil_append]
  · rw [hc, hg]
    simp only [createPlan_result, hm]
  · cases (shouldManageHelmControllerCRDs w).value <;> simp [Nat.add_assoc]
  · intro hnd
    refine List.Nodup.sublist (List.Sublist.map identity ?_) hnd
    refine List.Sublist.append
      (List.Sublist.append (missing_sublist w _) (missing_sublist w _)) ?_
    cases (shouldManageHelmControllerCRDs w).value
    · simp
    · simpa using missing_sublist w _

theorem C7_filtered_plan_witness :
    (∀ x ∈ (sampleWorld lockerPresent "true" ("k3s", none)).catalog.crds
        ++ (sampleWorld lockerPresent "true" ("k3s", none)).catalog.helmLockerCrdDefs
        ++ (sampleWorld lockerPresent "true" ("k3s", none)).catalog.helmControllerCrdDefs,
      ((sampleWorld lockerPresent "true" ("k3s", none)).Get
        (crdName (sampleWorld lockerPresent "true" ("k3s", none)) x)).resolvable = true) ∧
    submitted (Create (sampleWorld lockerPresent "true" ("k3s", none)) false).trace
      = [[sampleCRD "ProjectHelmChart"]] :=
  ⟨by decide,
   (C7_filtered_plan (sampleWorld lockerPresent "true" ("k3s", none)) rfl (by decide)).1.trans
    (by decide)⟩

/-- **C8.** With `shouldUpdateCRDs = false` and the factory built, when the filter of one
of the three groups returns an error (the filters before it having returned nil), `Create`
returns that error right after that filter: nothing is submitted for creation, the
runtime classifier is not called, and the only existence queries are those of the groups
up to the failing one. -/
theorem C8_filter_error_aborts_plan (w : World) (hf : w.NewFactoryFromClient = none)
    (e : String) :
    ((filterMissingCRDs w w.catalog.crds).result = Result.error e →
      Create w false = ⟨Result.error e,
        Event.newFactory :: (filterMissingCRDs w w.catalog.crds).trace⟩ ∧
      submitted (Create w false).trace = [] ∧ consulted (Create w false).trace = 0 ∧
      queries (Create w false).trace = queries (filterMissingCRDs w w.catalog.crds).trace) ∧
    ((filterMissingCRDs w w.catalog.crds).result = Result.nil →
      (filterMissingCRDs w w.catalog.helmLockerCrdDefs).result = Result.error e →
      Create w false = ⟨Result.error e,
        Event.newFactory :: ((filterMissingCRDs w w.catalog.crds).trace
          ++ (filterMissingCRDs w w.catalog.helmLockerCrdDefs).trace)⟩ ∧
      submitted (Create w false).trace = [] ∧ consulted (Create w false).trace = 0 ∧
      queries (Create w false).trace = queries (filterMissingCRDs w w.catalog.crds).trace
        ++ queries (filterMissingCRDs w w.catalog.helmLockerCrdDefs).trace) ∧
    ((filterMissingCRDs w w.catalog.crds).result = Result.nil →
      (filterMissingCRDs w w.catalog.helmLockerCrdDefs).result = Result.nil →
      (filterMissingCRDs w w.catalog.helmControllerCrdDefs).result = Result.error e →
      Create w false = ⟨Result.error e,
        Event.newFactory :: ((filterMissingCRDs w w.catalog.crds).trace
          ++ (filterMissingCRDs w w.catalog.helmLockerCrdDefs).trace
          ++ (filterMissingCRDs w w.catalog.helmControllerCrdDefs).trace)⟩ ∧
      submitted (Create w false).trace = [] ∧ consulted (Create w false).trace = 0 ∧
      queries (Create w false).trace = queries (filterMissingCRDs w w.catalog.crds).trace
        ++ queries (filterMissingCRDs w w.catalog.helmLockerCrdDefs).trace
        ++ queries (filterMissingCRDs w w.catalog.helmControllerCrdDefs).trace) := by
  have t1 := filterMissingCRDs_trace w w.catalog.crds
  have t2 := filterMissingCRDs_trace w w.catalog.helmLockerCrdDefs
  have t3 := filterMissingCRDs_trace w w.catalog.helmControllerCrdDefs
  have hc := Create_filtered w hf
  refine ⟨?_, ?_, ?_⟩
  · intro h1
    have hs := createFiltered_stop1 w (by rw [h1]; exact fun h => Result.noConfusion h)
    rw [h1] at hs
    rw [hc, hs]
    simp [submitted, consulted, queries, t1.1, t1.2]
  · intro h1 h2
    have hs := createFiltered_stop2 w h1 (by rw [h2]; exact fun h => Result.noConfusion h)
    rw [h2] at hs
    rw [hc, hs]
    simp [submitted, consulted, queries, submitted_append, consulted_append, queries_append,
      t1.1, t1.2, t2.1, t2.2]
  · intro h1 h2 h3
    have hs := createFiltered_stop3 w h1 h2 (by rw [h3]; exact fun h => Result.noConfusion h)
    rw [h3] at hs
    rw [hc, hs]
    simp [submitted, consulted, queries, submitted_append, consulted_append, queries_append,
      t1.1, t1.2, t2.1, t2.2, t3.1, t3.2]

theorem C8_filter_error_aborts_plan_witness :
    (filterMissingCRDs (sampleWorld configsUnreachable "true" ("k3s", none))
      (sampleWorld configsUnreachable "true" ("k3s", none)).catalog.crds).result = Result.nil ∧
    (filterMissingCRDs (sampleWorld configsUnreachable "true" ("k3s", none))
      (sampleWorld configsUnreachable "true" ("k3s", none)).catalog.helmLockerCrdDefs).result
      = Result.error "failed to check CRD helmchartconfigs.helm.cattle.io: timeout" ∧
    (Create (sampleWorld configsUnreachable "true" ("k3s", none)) false).result
      = Result.error "failed to check CRD helmchartconfigs.helm.cattle.io: timeout" ∧
    submitted (Create (sampleWorld configsUnreachable "true" ("k3s", none)) false).trace = [] ∧
    consulted (Create (sampleWorld configsUnreachable "true" ("k3s", none)) false).trace = 0 ∧
    queries (Create (sampleWorld configsUnreachable "true" ("k3s", none)) false).trace
      = ["projecthelmcharts.helm.cattle.io", "helmchartconfigs.helm.cattle.io"] :=
  ⟨by decide, by decide,
   congrArg CreateOut.result
     ((C8_filter_error_aborts_plan (sampleWorld configsUnreachable "true" ("k3s", none)) rfl
        "failed to check CRD helmchartconfigs.helm.cattle.io: timeout").2.1
        (by decide) (by decide)).1,
   ((C8_filter_error_aborts_plan (sampleWorld configsUnreachable "true" ("k3s", none)) rfl
        "failed to check CRD helmchartconfigs.helm.cattle.io: timeout").2.1
        (by decide) (by decide)).2.1,
   ((C8_filter_error_aborts_plan (sampleWorld configsUnreachable "true" ("k3s", none)) rfl
        "failed to check CRD helmchartconfigs.helm.cattle.io: timeout").2.1
        (by decide) (by decide)).2.2.1,
   by decide⟩

/-! ## The exporter -/

theorem mapSet_keys (m : List (String × String)) (k d : String) :
    (mapSet m k d).map Prod.fst
      = if k ∈ m.map Prod.fst then m.map Prod.fst else m.map Prod.fst ++ [k] := by
  induction m with
  | nil => simp [mapSet]
  | cons a t ih =>
    obtain ⟨k1, d1⟩ := a
    unfold mapSet
    by_cases h : k1 = k
    · simp [h]
    · have h2 : ¬ k = k1 := fun he => h he.symm
      simp only [h, if_false, List.map_cons, ih, List.mem_cons, h2, false_or]
      by_cases hm : k ∈ t.map Prod.fst <;> simp [hm]

theorem mapSet_nodup (m : List (String × String)) (k d : String)
    (h : (m.map Prod.fst).Nodup) : ((mapSet m k d).map Prod.fst).Nodup := by
  rw [mapSet_keys]
  by_cases hm : k ∈ m.map Prod.fst
  · simpa [hm] using h
  · simp only [hm, if_false]
    exact List.Nodup.append h (List.nodup_singleton k) (by simpa using hm)

/-- The first loop succeeds on objects that serialise, and the map it builds has distinct
keys. -/
theorem buildObjMap_ok (fw : FileWorld) (objs : List Object) :
    (∀ o ∈ objs, serialises fw o = true) →
    ∀ m : List (String × String), (m.map Prod.fst).Nodup →
      ∃ objMap, buildObjMap fw objs m = Except.ok objMap ∧ (objMap.map Prod.fst).Nodup := by
  induction objs with
  | nil => intro _ m hm; exact ⟨m, rfl, hm⟩
  | cons o rest ih =>
    intro hser m hm
    have ho : serialises fw o = true := hser o (List.mem_cons_self o rest)
    have hrest : ∀ o ∈ rest, serialises fw o = true :=
      fun x hx => hser x (List.mem_cons_of_mem o hx)
    unfold serialises at ho
    unfold buildObjMap
    cases he : fw.Export o with
    | error err => simp [he] at ho
    | ok data =>
      cases ha : fw.Accessor o with
      | some err => simp [he, ha] at ho
      | none => exact ih hrest _ (mapSet_nodup m _ data hm)

theorem writeBucket_other (fw : FileWorld) (dirpath key data : String) (fs : Files)
    (p : String) (h : p ≠ bucketPath fw dirpath key) :
    (writeBucket fw dirpath key data fs).1 p = fs p := by
  unfold bucketPath at h
  cases hc : fw.OsCreate (fw.Join dirpath (key ++ ".yaml")) with
  | some err => simp [writeBucket, hc]
  | none =>
    cases hw : fw.Write (fw.Join dirpath (key ++ ".yaml")) data with
    | none => simp [writeBucket, hc, hw, Files.set, h]
    | some r => simp [writeBucket, hc, hw, Files.set, h]

theorem writeBucket_written (fw : FileWorld) (dirpath key data : String) (fs : Files)
    (hc : fw.OsCreate (bucketPath fw dirpath key) = none)
    (hw : fw.Write (bucketPath fw dirpath key) data = none) :
    (writeBucket fw dirpath key data fs).1 (bucketPath fw dirpath key) = some data := by
  unfold bucketPath at hc hw
  simp [writeBucket, bucketPath, hc, hw, Files.set]

/-- A path that is the file of no bucket of the run is left as it was. -/
theorem runBuckets_other (fw : FileWorld) (dirpath p : String) (l : List (String × String)) :
    (∀ b ∈ l, p ≠ bucketPath fw dirpath b.1) →
    ∀ fs : Files, (runBuckets fw dirpath l fs).1 p = fs p := by
  induction l with
  | nil => intro _ fs; rfl
  | cons a t ih =>
    intro h fs
    obtain ⟨k, d⟩ := a
    unfold runBuckets
    simp only []
    rw [ih (fun b hb => h b (List.mem_cons_of_mem _ hb))]
    exact writeBucket_other fw dirpath k d fs p (h (k, d) (List.mem_cons_self _ _))

/-- A bucket whose file is opened and written, and whose path no other bucket of the run
has, ends up on disk with its content, wherever it comes in the run. -/
theorem runBuckets_written (fw : FileWorld) (dirpath key data : String)
    (hc : fw.OsCreate (bucketPath fw dirpath key) = none)
    (hw : fw.Write (bucketPath fw dirpath key) data = none)
    (l : List (String × String)) :
    l.Nodup → (key, data) ∈ l →
    (∀ b ∈ l, bucketPath fw dirpath b.1 = bucketPath fw dirpath key → b = (key, data)) →
    ∀ fs : Files, (runBuckets fw dirpath l fs).1 (bucketPath fw dirpath key) = some data := by
  induction l with
  | nil => intro _ hm; cases hm
  | cons a t ih =>
    intro hnd hm hinj fs
    obtain ⟨k, d⟩ := a
    have hndt : t.Nodup := (List.nodup_cons.mp hnd).2
    have hnot : (k, d) ∉ t := (List.nodup_cons.mp hnd).1
    have hinjt : ∀ b ∈ t, bucketPath fw dirpath b.1 = bucketPath fw dirpath key →
        b = (key, data) := fun b hb => hinj b (List.mem_cons_of_mem _ hb)
    unfold runBuckets
    simp only []
    by_cases hhead : (k, d) = (key, data)
    · have hk : k = key := congrArg Prod.fst hhead
      have hd : d = data := congrArg Prod.snd hhead
      have hother : ∀ b ∈ t, bucketPath fw dirpath key ≠ bucketPath fw dirpath b.1 := by
        intro b hb he
        have := hinjt b hb he.symm
        rw [this, ← hhead] at hb
        exact hnot hb
      rw [runBuckets_other fw dirpath _ t hother, hk, hd]
      exact writeBucket_written fw dirpath key data fs hc hw
    · rcases List.mem_cons.mp hm with h | h
      · exact absurd h.symm hhead
      · exact ih hndt h hinjt _

/-- The error of a bucket whose file cannot be opened or written is in the log of the run. -/
theorem runBuckets_logged (fw : FileWorld) (dirpath key data : String)
    (l : List (String × String)) :
    (key, data) ∈ l → ∀ fs : Files,
    (∀ e, fw.OsCreate (bucketPath fw dirpath key) = some e →
      FileEvent.logError e ∈ (runBuckets fw dirpath l fs).2) ∧
    (∀ e written, fw.OsCreate (bucketPath fw dirpath key) = none →
      fw.Write (bucketPath fw dirpath key) data = some (e, written) →
      FileEvent.logError e ∈ (runBuckets fw dirpath l fs).2) := by
  induction l with
  | nil => intro hm; cases hm
  | cons a t ih =>
    intro hm fs
    obtain ⟨k, d⟩ := a
    unfold runBuckets
    simp only [List.mem_append]
    rcases List.mem_cons.mp hm with h | h
    · have hk : key = k := congrArg Prod.fst h
      have hd : data = d := congrArg Prod.snd h
      subst hk; subst hd
      constructor
      · intro e he
        left
        unfold bucketPath at he
        simp [writeBucket, he]
      · intro e written hc hwr
        left
        unfold bucketPath at hc hwr
        simp [writeBucket, hc, hwr]
    · have hr := ih h (writeBucket fw dirpath k d fs).1
      exact ⟨fun e he => Or.inr (hr.1 e he), fun e wr hc hwr => Or.inr (hr.2 e wr hc hwr)⟩

/-- The entries of a map after `objMap[key] = data`: the new one, and the old ones of the
other keys. -/
theorem mapSet_mem (m : List (String × String)) (k d k1 d1 : String)
    (hnd : (m.map Prod.fst).Nodup) :
    (k1, d1) ∈ mapSet m k d ↔ (k1 = k ∧ d1 = d) ∨ (k1 ≠ k ∧ (k1, d1) ∈ m) := by
  induction m with
  | nil => simp [mapSet]
  | cons a t ih =>
    obtain ⟨k2, d2⟩ := a
    have hnot : k2 ∉ t.map Prod.fst := (List.nodup_cons.mp hnd).1
    have hndt : (t.map Prod.fst).Nodup := (List.nodup_cons.mp hnd).2
    have hkey : ∀ x, (k2, x) ∉ t := fun x hx => hnot (List.mem_map_of_mem Prod.fst hx)
    unfold mapSet
    by_cases h : k2 = k
    · subst h
      simp only [if_true, List.mem_cons, Prod.mk.injEq]
      constructor
      · rintro (⟨h1, h2⟩ | h3)
        · exact Or.inl ⟨h1, h2⟩
        · refine Or.inr ⟨?_, Or.inr h3⟩
          intro hk
          rw [hk] at h3
          exact hkey d1 h3
      · rintro (⟨h1, h2⟩ | ⟨h1, h2 | h2⟩)
        · exact Or.inl ⟨h1, h2⟩
        · exact absurd h2.1 h1
        · exact Or.inr h2
    · simp only [h, if_false, List.mem_cons, Prod.mk.injEq, ih hndt]
      constructor
      · rintro (⟨h1, h2⟩ | ⟨h1, h2⟩ | ⟨h1, h2⟩)
        · exact Or.inr ⟨by rw [h1]; exact h, Or.inl ⟨h1, h2⟩⟩
        · exact Or.inl ⟨h1, h2⟩
        · exact Or.inr ⟨h1, Or.inr h2⟩
      · rintro (⟨h1, h2⟩ | ⟨h1, h2 | h2⟩)
        · exact Or.inr (Or.inl ⟨h1, h2⟩)
        · exact Or.inl h2
        · exact Or.inr (Or.inr ⟨h1, h2⟩)

theorem lastWithKey_cons (key : String) (o : Object) (objs : List Object) :
    lastWithKey key (o :: objs) =
      match lastWithKey key objs with
      | some x => some x
      | none => if splitKey o.Name = key then some o else none := rfl

theorem lastWithKey_some (key : String) (objs : List Object) (x : Object) :
    lastWithKey key objs = some x → x ∈ objs ∧ splitKey x.Name = key := by
  induction objs with
  | nil => intro h; simp [lastWithKey] at h
  | cons o rest ih =>
    intro h
    unfold lastWithKey at h
    cases hr : lastWithKey key rest with
    | some y =>
      simp only [hr, Option.some.injEq] at h
      subst h
      exact ⟨List.mem_cons_of_mem _ (ih hr).1, (ih hr).2⟩
    | none =>
      simp only [hr] at h
      by_cases hk : splitKey o.Name = key
      · simp only [hk, if_true, Option.some.injEq] at h
        subst h
        exact ⟨List.mem_cons_self _ _, hk⟩
      · simp [hk] at h

theorem lastWithKey_of_mem (objs : List Object) (o : Object) (ho : o ∈ objs) :
    ∃ x, lastWithKey (splitKey o.Name) objs = some x := by
  induction objs with
  | nil => cases ho
  | cons a rest ih =>
    unfold lastWithKey
    cases hr : lastWithKey (splitKey o.Name) rest with
    | some y => exact ⟨y, rfl⟩
    | none =>
      rcases List.mem_cons.mp ho with h | h
      · subst h
        exact ⟨o, by simp⟩
      · obtain ⟨x, hx⟩ := ih h
        rw [hr] at hx
        cases hx

/-- The map built by the first loop from a map `m`: for a key some object has, the export
of the last such object; for any other key, what `m` held. -/
theorem buildObjMap_mem (fw : FileWorld) (objs : List Object) :
    ∀ (m objMap : List (String × String)), (m.map Prod.fst).Nodup →
      buildObjMap fw objs m = Except.ok objMap →
      ∀ k d, (k, d) ∈ objMap ↔
        (∃ o, lastWithKey k objs = some o ∧ fw.Export o = Except.ok d) ∨
        (lastWithKey k objs = none ∧ (k, d) ∈ m) := by
  induction objs with
  | nil =>
    intro m objMap _ hb k d
    simp only [buildObjMap, Except.ok.injEq] at hb
    subst hb
    simp [lastWithKey]
  | cons o rest ih =>
    intro m objMap hnd hb k d
    unfold buildObjMap at hb
    cases he : fw.Export o with
    | error err => simp [he] at hb
    | ok data =>
      cases ha : fw.Accessor o with
      | some err => simp [he, ha] at hb
      | none =>
        simp only [he, ha] at hb
        rw [ih _ objMap (mapSet_nodup m _ data hnd) hb k d, mapSet_mem m _ data k d hnd]
        rw [lastWithKey_cons]
        cases hr : lastWithKey k rest with
        | some y => simp
        | none =>
          by_cases hk : splitKey o.Name = k
          · subst hk
            simp only [he, true_and, ne_eq, not_true_eq_false, false_and, or_false, if_true,
              Option.some.injEq, exists_eq_left', Except.ok.injEq, reduceCtorEq, or_false,
              exists_false, false_or]
            exact eq_comm
          · have hk2 : ¬ k = splitKey o.Name := fun h => hk h.symm
            simp [hk, hk2]

/-! ## The exporter: claims -/

/-- **C6 (the code at the failing input).** Two definitions whose names share the key
`helmcharts`, exported as `chart-A` and `chart-B`: the map keeps one entry for the key,
the second assignment replacing the first, and `helmcharts.yaml` holds `chart-B` only. -/
theorem C6_shared_key_keeps_last_only :
    splitKey "helmcharts.helm.cattle.io" = "helmcharts" ∧
    splitKey "helmcharts.k3s.cattle.io" = "helmcharts" ∧
    buildObjMap (sampleFileWorld (fun _ => none))
        [⟨"helmcharts.helm.cattle.io", "chart-A"⟩, ⟨"helmcharts.k3s.cattle.io", "chart-B"⟩,
          ⟨"helmreleases.helm.cattle.io", "release"⟩] []
      = Except.ok [("helmcharts", "chart-B"), ("helmreleases", "release")] ∧
    (writeFiles (sampleFileWorld (fun _ => none)) "crds"
        [⟨"helmcharts.helm.cattle.io", "chart-A"⟩, ⟨"helmcharts.k3s.cattle.io", "chart-B"⟩,
          ⟨"helmreleases.helm.cattle.io", "release"⟩] noFiles).result = Result.nil ∧
    (writeFiles (sampleFileWorld (fun _ => none)) "crds"
        [⟨"helmcharts.helm.cattle.io", "chart-A"⟩, ⟨"helmcharts.k3s.cattle.io", "chart-B"⟩,
          ⟨"helmreleases.helm.cattle.io", "release"⟩] noFiles).files "crds/helmcharts.yaml"
      = some "chart-B" :=
  ⟨by decide, by decide, by decide, by decide, by decide⟩

/-- **C9.** Once `MkdirAll` succeeds and every object serialises (its `yaml.Export` and
`meta.Accessor` of lines 56-63 return no error), `writeFiles` returns nil whatever the
creations and writes of the bucket files do and in whatever order the buckets run.  The
buckets are exactly the keys of the objects, each with the export of the last object of
its key.  The error of a bucket whose file cannot be opened or written is logged, and
every bucket whose own file is opened and written (its path being that of no other
bucket) is on disk with its content, whatever happens to the others: so for every object,
the file of its key holds the export of the last object of that key. -/
theorem C9_bucket_failures_are_only_logged (fw : FileWorld) (dirpath : String)
    (objs : List Object) (fs : Files)
    (horder : ∀ m, (fw.rangeOrder m).Perm m)
    (hdir : fw.MkdirAll dirpath = none)
    (hser : ∀ o ∈ objs, serialises fw o = true) :
    (writeFiles fw dirpath objs fs).result = Result.nil ∧
    (∃ objMap, buildObjMap fw objs [] = Except.ok objMap ∧
      (∀ key data, (key, data) ∈ objMap ↔
        ∃ o, lastWithKey key objs = some o ∧ fw.Export o = Except.ok data) ∧
      (∀ o ∈ objs, ∃ data, (splitKey o.Name, data) ∈ objMap) ∧
      ∀ key data, (key, data) ∈ objMap →
        (∀ e, fw.OsCreate (bucketPath fw dirpath key) = some e →
          FileEvent.logError e ∈ (writeFiles fw dirpath objs fs).trace) ∧
        (∀ e written, fw.OsCreate (bucketPath fw dirpath key) = none →
          fw.Write (bucketPath fw dirpath key) data = some (e, written) →
          FileEvent.logError e ∈ (writeFiles fw dirpath objs fs).trace) ∧
        (fw.OsCreate (bucketPath fw dirpath key) = none →
          fw.Write (bucketPath fw dirpath key) data = none →
          (∀ k d, (k, d) ∈ objMap →
            bucketPath fw dirpath k = bucketPath fw dirpath key → k = key) →
          (writeFiles fw dirpath objs fs).files (bucketPath fw dirpath key) = some data)) ∧
    (∀ o ∈ objs, ∃ x data, lastWithKey (splitKey o.Name) objs = some x ∧
      fw.Export x = Except.ok data ∧
      (fw.OsCreate (bucketPath fw dirpath (splitKey o.Name)) = none →
        fw.Write (bucketPath fw dirpath (splitKey o.Name)) data = none →
        (∀ o2 ∈ objs, bucketPath fw dirpath (splitKey o2.Name)
            = bucketPath fw dirpath (splitKey o.Name) →
          splitKey o2.Name = splitKey o.Name) →
        (writeFiles fw dirpath objs fs).files (bucketPath fw dirpath (splitKey o.Name))
          = some data)) := by
  obtain ⟨objMap, hb, hkeys⟩ := buildObjMap_ok fw objs hser [] List.nodup_nil
  have hw : writeFiles fw dirpath objs fs =
      ⟨Result.nil, (runBuckets fw dirpath (fw.rangeOrder objMap) fs).1,
        FileEvent.mkdirAll dirpath :: (runBuckets fw dirpath (fw.rangeOrder objMap) fs).2⟩ := by
    simp [writeFiles, hdir, hb]
  have hperm := horder objMap
  have hchar : ∀ key data, (key, data) ∈ objMap ↔
      ∃ o, lastWithKey key objs = some o ∧ fw.Export o = Except.ok data := by
    intro key data
    rw [buildObjMap_mem fw objs [] objMap List.nodup_nil hb key data]
    simp
  have hlast : ∀ o ∈ objs, ∃ x data, lastWithKey (splitKey o.Name) objs = some x ∧
      fw.Export x = Except.ok data := by
    intro o ho
    obtain ⟨x, hx⟩ := lastWithKey_of_mem objs o ho
    have hxs := hser x (lastWithKey_some _ objs x hx).1
    unfold serialises at hxs
    cases he : fw.Export x with
    | error err => simp [he] at hxs
    | ok data => exact ⟨x, data, hx, he⟩
  have hfile : ∀ key data, (key, data) ∈ objMap →
      fw.OsCreate (bucketPath fw dirpath key) = none →
      fw.Write (bucketPath fw dirpath key) data = none →
      (∀ k d, (k, d) ∈ objMap →
        bucketPath fw dirpath k = bucketPath fw dirpath key → k = key) →
      (writeFiles fw dirpath objs fs).files (bucketPath fw dirpath key) = some data := by
    intro key data hmem hc hwr hinj
    rw [hw]
    have hmem2 : (key, data) ∈ fw.rangeOrder objMap := hperm.mem_iff.mpr hmem
    have hnd : (fw.rangeOrder objMap).Nodup :=
      hperm.nodup_iff.mpr (List.Nodup.of_map Prod.fst hkeys)
    refine runBuckets_written fw dirpath key data hc hwr _ hnd hmem2 ?_ fs
    intro b hb2 hp
    have hbm : b ∈ objMap := hperm.mem_iff.mp hb2
    have hk : b.1 = key := hinj b.1 b.2 hbm hp
    exact List.inj_on_of_nodup_map hkeys hbm hmem hk
  refine ⟨by rw [hw], ⟨objMap, hb, hchar, ?_, ?_⟩, ?_⟩
  · intro o ho
    obtain ⟨x, data, hx, he⟩ := hlast o ho
    exact ⟨data, (hchar _ data).mpr ⟨x, hx, he⟩⟩
  · intro key data hmem
    have hmem2 : (key, data) ∈ fw.rangeOrder objMap := hperm.mem_iff.mpr hmem
    have hlog := runBuckets_logged fw dirpath key data (fw.rangeOrder objMap) hmem2 fs
    refine ⟨?_, ?_, hfile key data hmem⟩
    · intro e he
      rw [hw]
      exact List.mem_cons_of_mem _ (hlog.1 e he)
    · intro e written hc hwr
      rw [hw]
      exact List.mem_cons_of_mem _ (hlog.2 e written hc hwr)
  · intro o ho
    obtain ⟨x, data, hx, he⟩ := hlast o ho
    refine ⟨x, data, hx, he, ?_⟩
    intro hc hwr hinj
    refine hfile _ data ((hchar _ data).mpr ⟨x, hx, he⟩) hc hwr ?_
    intro k d hkd hp
    obtain ⟨y, hy, _⟩ := (hchar k d).mp hkd
    have hym := lastWithKey_some k objs y hy
    rw [← hym.2] at hp ⊢
    exact hinj y hym.1 hp

theorem C9_bucket_failures_are_only_logged_witness :
    (∀ o ∈ [(⟨"projecthelmcharts.helm.cattle.io", "project"⟩ : Object),
          ⟨"helmcharts.helm.cattle.io", "chart"⟩, ⟨"helmreleases.helm.cattle.io", "release"⟩],
        serialises (sampleFileWorld chartsFileDenied) o = true) ∧
    (sampleFileWorld chartsFileDenied).OsCreate "crds/helmcharts.yaml"
      = some "permission denied" ∧
    (writeFiles (sampleFileWorld chartsFileDenied) "crds"
        [⟨"projecthelmcharts.helm.cattle.io", "project"⟩,
          ⟨"helmcharts.helm.cattle.io", "chart"⟩, ⟨"helmreleases.helm.cattle.io", "release"⟩]
        noFiles).result = Result.nil ∧
    (writeFiles (sampleFileWorld chartsFileDenied) "crds"
        [⟨"projecthelmcharts.helm.cattle.io", "project"⟩,
          ⟨"helmcharts.helm.cattle.io", "chart"⟩, ⟨"helmreleases.helm.cattle.io", "release"⟩]
        noFiles).files "crds/projecthelmcharts.yaml" = some "project" ∧
    (writeFiles (sampleFileWorld chartsFileDenied) "crds"
        [⟨"projecthelmcharts.helm.cattle.io", "project"⟩,
          ⟨"helmcharts.helm.cattle.io", "chart"⟩, ⟨"helmreleases.helm.cattle.io", "release"⟩]
        noFiles).files "crds/helmreleases.yaml" = some "release" ∧
    (writeFiles (sampleFileWorld chartsFileDenied) "crds"
        [⟨"projecthelmcharts.helm.cattle.io", "project"⟩,
          ⟨"helmcharts.helm.cattle.io", "chart"⟩, ⟨"helmreleases.helm.cattle.io", "release"⟩]
        noFiles).files "crds/helmcharts.yaml" = none :=
  ⟨by decide, by decide,
   (C9_bucket_failures_are_only_logged (sampleFileWorld chartsFileDenied) "crds"
      [⟨"projecthelmcharts.helm.cattle.io", "project"⟩,
        ⟨"helmcharts.helm.cattle.io", "chart"⟩, ⟨"helmreleases.helm.cattle.io", "release"⟩]
      noFiles (fun m => List.Perm.refl m) rfl (by decide)).1,
   by decide, by decide, by decide⟩

end Crd
